import Mathlib

/-!
Verification development for the adaptive demand-forecasting and
inventory-scheduling engine of the Tartanhacks repository.

Shallow embedding conventions:
* Python floats are modelled as exact rationals (`ℚ`); Python ints as `ℤ`
  (or `ℕ` for counters that are only ever incremented from 0).
* Timestamps (`datetime`) are modelled as rationals counting seconds; a
  `timedelta(minutes=m)` therefore becomes `60 * m`.
* Python dicts keyed by strings are modelled as association lists
  (`List (String × α)`) with first-match lookup; assignment of an existing
  key updates it in place, a new key is appended — matching the insertion
  order semantics of `dict`.
* `collections.deque(maxlen=n)` is a list (oldest first) whose append drops
  from the left once `n` entries are reached.
* Python's `round` (banker's rounding) is modelled exactly on rationals by
  `roundHalfEven`; `round(x, d)` becomes `roundTo d x`.
* Methods that mutate `self` become functions `Engine → ... → ... × Engine`.
  A method that raises returns an `Except` result together with the engine
  state at the moment of the raise (mutations performed before the raise are
  kept, as they are on the Python object).
-/

/-- Model of `RecommendationEngine._clamp`: `max(lower, min(upper, value))`. -/
def clampQ (value lower upper : ℚ) : ℚ := max lower (min upper value)

/-- Model of `RecommendationEngine._round_to_nearest_unit`:
`0` for non-positive input, otherwise `int(math.floor(units + 0.5))`. -/
def roundToNearestUnit (units : ℚ) : ℤ :=
  if units ≤ 0 then 0 else ⌊units + 1/2⌋

/-- Python 3 `round` on a number with zero fractional digits: round half to even. -/
def roundHalfEven (x : ℚ) : ℤ :=
  let n := ⌊x⌋
  let f := x - n
  if f < 1/2 then n
  else if 1/2 < f then n + 1
  else if Even n then n else n + 1

/-- Python 3 `round(x, d)` modelled exactly on rationals. -/
def roundTo (d : ℕ) (x : ℚ) : ℚ :=
  (roundHalfEven (x * (10 ^ d)) : ℚ) / (10 ^ d)

/-! ### Python dicts as association lists -/

/-- First-match lookup in an association list (Python `dict.__getitem__`,
partial). -/
def dlookup {α : Type} : List (String × α) → String → Option α
  | [], _ => none
  | (k₁, v) :: t, k => if k₁ = k then some v else dlookup t k

/-- Python `dict.get(k, d)`. -/
def dget {α : Type} (m : List (String × α)) (k : String) (d : α) : α :=
  (dlookup m k).getD d

/-- Python `k in dict`. -/
def dmem {α : Type} (m : List (String × α)) (k : String) : Bool :=
  (dlookup m k).isSome

/-- Python `dict[k] = v`: update the existing entry in place, else append. -/
def dset {α : Type} : List (String × α) → String → α → List (String × α)
  | [], k, v => [(k, v)]
  | (k₁, v₁) :: t, k, v => if k₁ = k then (k, v) :: t else (k₁, v₁) :: dset t k v

/-- Python `dict.setdefault(k, v)`. -/
def dsetdefault {α : Type} (m : List (String × α)) (k : String) (v : α) :
    List (String × α) :=
  if dmem m k then m else m ++ [(k, v)]

/-- A Python `for` loop performing `dict[key(b)] = v(b)` for each element. -/
def storeAll {α β : Type} (key : β → String) (v : β → α) (l : List β)
    (m : List (String × α)) : List (String × α) :=
  l.foldl (fun acc b => dset acc (key b) (v b)) m

/-- A Python `for` loop performing `dict.setdefault(key(b), v(b))` for each
element. -/
def installDefaults {α β : Type} (key : β → String) (v : β → α) (l : List β)
    (m : List (String × α)) : List (String × α) :=
  l.foldl (fun acc b => dsetdefault acc (key b) (v b)) m

@[simp] theorem dlookup_nil {α : Type} (k : String) :
    dlookup ([] : List (String × α)) k = none := rfl

@[simp] theorem dlookup_cons {α : Type} (k₁ k : String) (v : α) (t : List (String × α)) :
    dlookup ((k₁, v) :: t) k = if k₁ = k then some v else dlookup t k := rfl

@[simp] theorem dlookup_dset_self {α : Type} (m : List (String × α)) (k : String) (v : α) :
    dlookup (dset m k v) k = some v := by
  induction m with
  | nil => simp [dset]
  | cons hd t ih =>
    obtain ⟨k₁, v₁⟩ := hd
    by_cases h : k₁ = k <;> simp [dset, h, ih]

theorem dlookup_dset_ne {α : Type} (m : List (String × α)) (k k' : String) (v : α)
    (h : k ≠ k') : dlookup (dset m k v) k' = dlookup m k' := by
  induction m with
  | nil => simp [dset, h]
  | cons hd t ih =>
    obtain ⟨k₁, v₁⟩ := hd
    by_cases h₁ : k₁ = k
    · subst h₁; simp [dset, h]
    · simp [dset, h₁, ih]

theorem dlookup_append {α : Type} (m m' : List (String × α)) (k : String) :
    dlookup (m ++ m') k = ((dlookup m k).map some).getD (dlookup m' k) := by
  induction m with
  | nil => simp
  | cons hd t ih =>
    obtain ⟨k₁, v₁⟩ := hd
    by_cases h : k₁ = k <;> simp [h, ih]

theorem dlookup_filter_key {α : Type} (m : List (String × α)) (p : String → Bool)
    (k : String) :
    dlookup (m.filter (fun kv => p kv.1)) k =
      if p k then dlookup m k else none := by
  induction m with
  | nil => simp
  | cons hd t ih =>
    obtain ⟨k₁, v₁⟩ := hd
    by_cases hk : k₁ = k
    · subst hk
      by_cases hp : p k₁ <;> simp [List.filter_cons, hp, ih]
    · by_cases hp : p k₁ <;> simp [List.filter_cons, hp, hk, ih]

theorem dlookup_dsetdefault {α : Type} (m : List (String × α)) (k k' : String) (v : α) :
    dlookup (dsetdefault m k v) k' =
      if k = k' ∧ (dlookup m k).isNone then some ((dlookup m k').getD v)
      else dlookup m k' := by
  unfold dsetdefault dmem
  by_cases hmem : (dlookup m k).isSome
  · rw [if_pos hmem, if_neg]
    rintro ⟨-, h₂⟩
    rw [Option.isNone_iff_eq_none] at h₂
    rw [h₂] at hmem
    simp at hmem
  · simp only [hmem, Bool.false_eq_true, if_false, dlookup_append]
    rw [Option.not_isSome_iff_eq_none] at hmem
    by_cases hk : k = k'
    · subst hk; simp [hmem]
    · simp [hmem, hk]
      cases h' : dlookup m k' <;> simp

/-- `dsetdefault` never changes the looked-up value when the default being
installed coincides with the lookup default. -/
theorem dget_dsetdefault_default {α : Type} (m : List (String × α)) (k k' : String)
    (d : α) : dget (dsetdefault m k d) k' d = dget m k' d := by
  unfold dget
  rw [dlookup_dsetdefault]
  by_cases h : k = k' ∧ (dlookup m k).isNone
  · obtain ⟨rfl, h₂⟩ := h
    rw [Option.isNone_iff_eq_none] at h₂
    simp [h₂]
  · rw [if_neg h]

@[simp] theorem dmem_dsetdefault {α : Type} (m : List (String × α)) (k k' : String)
    (v : α) : dmem (dsetdefault m k v) k' = (dmem m k' || k = k') := by
  unfold dmem
  rw [dlookup_dsetdefault]
  by_cases h : k = k' ∧ (dlookup m k).isNone
  · obtain ⟨rfl, h₂⟩ := h
    rw [Option.isNone_iff_eq_none] at h₂
    simp [h₂]
  · rw [if_neg h]
    rcases Decidable.em (k = k') with hk | hk
    · subst hk
      rcases h' : dlookup m k with _ | v'
      · exact absurd ⟨rfl, by simp [h']⟩ h
      · simp [h']
    · simp [hk]

/-! ### Data model (`src/app/recommendations.py`) -/

/-- Model of the frozen dataclass `ItemProfile`. -/
structure ItemProfile where
  key : String
  label : String
  units_per_order : ℚ
  batch_size : ℤ
  max_unit_size : ℤ
  baseline_drop_units : ℤ
  unit_cost_usd : ℚ
  unit_label : String
deriving DecidableEq

/-- Model of the dataclass `FryerLot` (`ready_at` in seconds). -/
structure FryerLot where
  units : ℤ
  ready_at : ℚ
deriving DecidableEq

/-- Model of the dataclass `ItemInventoryState`; the deque of lots is a list,
front first. -/
structure ItemInventoryState where
  ready_units : ℚ
  fryer_lots : List FryerLot
deriving DecidableEq

/-- Mutable/configured state of `RecommendationEngine`.  Display-only string
fields (business name, type, location, service model) are omitted; the
urgency threshold fields correspond to `medium_urgency_shortfall_ratio` and
`high_urgency_shortfall_ratio` in the Python source. -/
structure Engine where
  history : List (ℚ × ℚ)
  forecast_horizon_min : ℚ
  drop_cadence_min : ℚ
  decision_interval_sec : ℚ
  cook_time_sec : ℚ
  avg_ticket_usd : ℚ
  medium_urgency_shortfall : ℚ
  high_urgency_shortfall : ℚ
  item_profiles : List ItemProfile
  inventory : List (String × ItemInventoryState)
  last_inventory_timestamp : Option ℚ
  last_decision_timestamp : Option ℚ
  last_decision_by_item : List (String × ℤ)
  feedback_multiplier_by_item : List (String × ℚ)
  feedback_events_by_item : List (String × ℕ)
deriving DecidableEq

/-- The threshold initialization in `RecommendationEngine.__init__`
(lines 43-54): clamp both configured values to `[0, 1]`, then, if the high
threshold ended up below the medium one, raise the high threshold to the
medium value.  Returns `(medium, high)`. -/
def initUrgencyThresholds (cfgMedium cfgHigh : ℚ) : ℚ × ℚ :=
  let medium := clampQ cfgMedium 0 1
  let high := clampQ cfgHigh 0 1
  if high < medium then (medium, medium) else (medium, high)

/-- `float(max(0, min(int(profile.baseline_drop_units), int(profile.max_unit_size))))`,
the initial ready-unit stock of an item. -/
def baselineReadyUnits (p : ItemProfile) : ℚ :=
  ((max 0 (min p.baseline_drop_units p.max_unit_size) : ℤ) : ℚ)

/-- `min(int(profile.baseline_drop_units), int(profile.max_unit_size))` as used
for the `baseline_units` response field. -/
def baselineUnits (p : ItemProfile) : ℤ :=
  min p.baseline_drop_units p.max_unit_size

/-- The dict comprehension `{profile.key: profile for profile in self.item_profiles}`. -/
def activeProfiles (profiles : List ItemProfile) : List (String × ItemProfile) :=
  storeAll (fun p => p.key) (fun p => p) profiles []

/-- Model of `RecommendationEngine._reset_inventory_state`. -/
def resetInventoryState (s : Engine) : Engine :=
  { s with
    inventory := storeAll (fun p => p.key)
      (fun p => { ready_units := baselineReadyUnits p, fryer_lots := [] })
      s.item_profiles [],
    last_decision_by_item := storeAll (fun p => p.key) (fun _ => 0) s.item_profiles [],
    last_inventory_timestamp := none,
    last_decision_timestamp := none }

/-- Model of `RecommendationEngine._reset_feedback_state`. -/
def resetFeedbackState (s : Engine) : Engine :=
  { s with
    feedback_multiplier_by_item := storeAll (fun p => p.key) (fun _ => 1) s.item_profiles [],
    feedback_events_by_item := storeAll (fun p => p.key) (fun _ => 0) s.item_profiles [] }

/-- Model of `RecommendationEngine._ensure_inventory_state`: drop entries for
keys no longer in the catalog, then default-initialize entries for catalog
keys that are missing. -/
def ensureInventoryState (s : Engine) : Engine :=
  let active := activeProfiles s.item_profiles
  let inv₁ := s.inventory.filter (fun kv => dmem active kv.1)
  let ldec₁ := s.last_decision_by_item.filter (fun kv => dmem active kv.1)
  { s with
    inventory := installDefaults (fun kp => kp.1)
      (fun kp => { ready_units := baselineReadyUnits kp.2, fryer_lots := [] })
      active inv₁,
    last_decision_by_item := installDefaults (fun kp => kp.1) (fun _ => 0) active ldec₁ }

/-- Model of `RecommendationEngine._ensure_feedback_state`. -/
def ensureFeedbackState (s : Engine) : Engine :=
  let active := activeProfiles s.item_profiles
  let mult₁ := s.feedback_multiplier_by_item.filter (fun kv => dmem active kv.1)
  let ev₁ := s.feedback_events_by_item.filter (fun kv => dmem active kv.1)
  { s with
    feedback_multiplier_by_item := installDefaults (fun kp => kp.1) (fun _ => 1) active mult₁,
    feedback_events_by_item := installDefaults (fun kp => kp.1) (fun _ => 0) active ev₁ }

/-- Model of `RecommendationEngine._demand_rate_units_per_min`
(`drop_cadence_min` passed explicitly in place of `self`). -/
def demandRateUnitsPerMin (drop_cadence_min customer_load : ℚ) (p : ItemProfile) : ℚ :=
  (max 0 customer_load) / (max (1/2) drop_cadence_min) * p.units_per_order

/-- Model of `RecommendationEngine._stabilized_customer_count`; the history is
the one that already contains the current sample (the Python method reads
`self._history` after the `generate` append). -/
def stabilizedCustomerCount (history : List (ℚ × ℚ)) (current_customers : ℚ) : ℚ :=
  if history = [] then max 0 current_customers
  else
    let window := min 12 history.length
    let recent := (history.drop (history.length - window)).map Prod.snd
    let trailingAvg := recent.sum / (max 1 window : ℕ)
    max 0 ((65/100) * trailingAvg + (35/100) * max 0 current_customers)

/-- Model of `RecommendationEngine._trend_per_min` (timestamps in seconds,
result in customers per minute). -/
def trendPerMin (history : List (ℚ × ℚ)) : ℚ :=
  if history.length < 2 then 0
  else
    match history.head?, history.getLast? with
    | some (t₀, c₀), some (t₁, c₁) =>
        let deltaMin := (t₁ - t₀) / 60
        if deltaMin ≤ 0 then 0 else (c₁ - c₀) / deltaMin
    | _, _ => 0

/-- Model of `RecommendationEngine._state_from_trend`. -/
def stateFromTrend (trend : ℚ) : String :=
  if trend ≥ 17/20 then "surging"
  else if trend ≤ -(3/4) then "falling"
  else "steady"

/-- Model of `RecommendationEngine._urgency_from_inventory_gap`; returns
(urgency label, shortfall units, shortfall share of projected demand). -/
def urgencyFromInventoryGap (s : Engine)
    (projected_demand_units available_inventory_units : ℚ) : String × ℚ × ℚ :=
  let safeDemand := max 0 projected_demand_units
  let safeAvailable := max 0 available_inventory_units
  let shortfall := max 0 (safeDemand - safeAvailable)
  if safeDemand ≤ 0 then ("low", shortfall, 0)
  else
    let frac := clampQ (shortfall / safeDemand) 0 1
    if frac ≥ s.high_urgency_shortfall then ("high", shortfall, frac)
    else if frac ≥ s.medium_urgency_shortfall then ("medium", shortfall, frac)
    else ("low", shortfall, frac)

/-- Model of `RecommendationEngine._confidence`. -/
def engineConfidence (s : Engine) (processing_fps : ℚ) : ℚ :=
  let historyFactor := clampQ ((s.history.length : ℚ) / 18) 0 1
  let fpsFactor := clampQ (processing_fps / 15) 0 1
  roundTo 2 (clampQ ((45/100) + (35/100) * historyFactor + (1/5) * fpsFactor) (45/100) (95/100))

/-- Model of `RecommendationEngine._fryer_units`. -/
def fryerUnits (st : ItemInventoryState) (ready_before : Option ℚ := none) : ℤ :=
  match ready_before with
  | none => (st.fryer_lots.map (fun l => max 0 l.units)).sum
  | some cutoff =>
      ((st.fryer_lots.filter (fun l => decide (l.ready_at ≤ cutoff))).map
        (fun l => max 0 l.units)).sum

/-- The promotion `while` loop of `RecommendationEngine._advance_inventory`:
pop lots from the front whose `ready_at` has been reached.  Returns the
popped (promoted) lots together with the remaining queue. -/
def popMatured (now : ℚ) : List FryerLot → List FryerLot × List FryerLot
  | [] => ([], [])
  | lot :: rest =>
      if lot.ready_at ≤ now then
        let pr := popMatured now rest
        (lot :: pr.1, pr.2)
      else ([], lot :: rest)

/-- The per-item body of `RecommendationEngine._advance_inventory` once an
effective (positive) elapsed time is known: promote matured lots, consume
ready units at the demand rate, floor at zero, cap at six max unit sizes. -/
def advanceItem (drop_cadence_min customer_load now elapsed_sec : ℚ)
    (p : ItemProfile) (st : ItemInventoryState) : ItemInventoryState :=
  let pr := popMatured now st.fryer_lots
  let ready₁ := st.ready_units + (((pr.1.map (fun l => max 0 l.units)).sum : ℤ) : ℚ)
  let consumed := demandRateUnitsPerMin drop_cadence_min customer_load p * (elapsed_sec / 60)
  { ready_units := min (max 0 (ready₁ - consumed)) ((p.max_unit_size : ℚ) * 6),
    fryer_lots := pr.2 }

/-- Model of `RecommendationEngine._advance_inventory`. -/
def advanceInventory (s : Engine) (timestamp customer_load : ℚ) : Engine :=
  let s₁ := ensureInventoryState s
  match s₁.last_inventory_timestamp with
  | none => { s₁ with last_inventory_timestamp := some timestamp }
  | some last =>
      let elapsed := max 0 (timestamp - last)
      if elapsed ≤ 0 then s₁
      else
        { s₁ with
          inventory := s₁.item_profiles.foldl
            (fun inv p =>
              dset inv p.key
                (advanceItem s₁.drop_cadence_min customer_load timestamp elapsed p
                  (dget inv p.key { ready_units := 0, fryer_lots := [] }))) s₁.inventory,
          last_inventory_timestamp := some timestamp }

/-- Model of `RecommendationEngine._decision_due`; returns
`(due, remaining whole seconds)`. -/
def decisionDue (s : Engine) (timestamp : ℚ) : Bool × ℤ :=
  match s.last_decision_timestamp with
  | none => (true, 0)
  | some last =>
      let elapsed := max 0 (timestamp - last)
      if elapsed ≥ s.decision_interval_sec then (true, 0)
      else (false, max 0 ⌈s.decision_interval_sec - elapsed⌉)

/-! ### Snapshots and recommendation payloads -/

/-- The business snapshot consumed by `RecommendationEngine.generate`.  The
dict parsing with fallbacks (`aggregates.total_customers`, `or 0.0`, …) is the
API boundary; the snapshot arrives here already extracted, and `stream_status`
arrives already lowercased (the Python `generate` applies `str(...).lower()`
before any comparison). -/
structure Snapshot where
  timestamp : ℚ
  total_customers : ℚ
  estimated_wait_time_min : ℚ
  processing_fps : ℚ
  stream_status : String
  stream_error : Option String
deriving DecidableEq

/-- Forecast block of a recommendation payload. -/
structure Forecast where
  horizon_min : ℚ
  queue_state : String
  trend_customers_per_min : ℚ
  current_customers : ℚ
  projected_customers : ℚ
  confidence : ℚ
deriving DecidableEq

/-- One per-item recommendation entry.  The human-readable `reason` string is
pure formatting over the numeric fields and is not modelled.  Fallback
(`unavailable`) payloads leave `decision_locked` at `false` and
`next_decision_in_sec` at `0` (the Python fallback dict omits those keys). -/
structure ItemRec where
  item : String
  label : String
  recommended_units : ℤ
  baseline_units : ℤ
  max_unit_size : ℤ
  unit_label : String
  delta_units : ℤ
  forecast_window_demand_units : ℚ
  ready_inventory_units : ℤ
  fryer_inventory_units : ℤ
  projected_inventory_gap_units : ℚ
  projected_inventory_gap_share : ℚ
  decision_locked : Bool
  next_decision_in_sec : ℤ
  feedback_multiplier : ℚ
  feedback_events : ℕ
  urgency : String
deriving DecidableEq

/-- Impact block of a recommendation payload. -/
structure Impact where
  estimated_wait_reduction_min : ℚ
  estimated_waste_avoided_units : ℚ
  estimated_cost_saved_usd : ℚ
  estimated_revenue_protected_usd : ℚ
  current_wait_time_min : ℚ
deriving DecidableEq

/-- A recommendation payload; `notes` is the `assumptions.notes` list. -/
structure Response where
  forecast : Forecast
  recommendations : List ItemRec
  impact : Impact
  notes : List String
deriving DecidableEq

/-- Model of `RecommendationEngine._unit_label`. -/
def unitLabel (v : String) : String :=
  if v.trim = "" then "units" else v.trim

/-- The per-item target computation shared by both planning paths
(`recommendations.py` lines 432-436 and 575-579): raw demand floored at zero,
scaled by the feedback multiplier, rounded to the nearest unit, capped at the
maximum unit size. -/
def itemTargetUnits (effective_customers multiplier : ℚ) (p : ItemProfile) : ℤ :=
  min (roundToNearestUnit (max 0 (effective_customers * p.units_per_order) * multiplier))
    p.max_unit_size

/-- Model of `RecommendationEngine._build_unavailable_response`.  Returns the
payload together with the engine state (mutated only by the two `ensure`
normalizations the Python method performs). -/
def buildUnavailableResponse (s : Engine) (current_customers current_wait : ℚ)
    (stream_error : Option String) : Response × Engine :=
  let effective := max 0 current_customers
  let s₂ := ensureInventoryState (ensureFeedbackState s)
  let recs := s₂.item_profiles.map (fun p =>
    let st := dget s₂.inventory p.key { ready_units := 0, fryer_lots := [] }
    let readyInv := max 0 (roundToNearestUnit st.ready_units)
    let fryerInv := max 0 (fryerUnits st)
    let available := ((max 0 (readyInv + fryerInv) : ℤ) : ℚ)
    let rawTarget := max 0 (effective * p.units_per_order)
    let mult := dget s₂.feedback_multiplier_by_item p.key 1
    let recommended := itemTargetUnits effective mult p
    let supply := available + ((max 0 recommended : ℤ) : ℚ)
    let urg := urgencyFromInventoryGap s₂ rawTarget supply
    { item := p.key
      label := p.label
      recommended_units := recommended
      baseline_units := baselineUnits p
      max_unit_size := p.max_unit_size
      unit_label := unitLabel p.unit_label
      delta_units := recommended - baselineUnits p
      forecast_window_demand_units := roundTo 1 rawTarget
      ready_inventory_units := readyInv
      fryer_inventory_units := fryerInv
      projected_inventory_gap_units := roundTo 1 urg.2.1
      projected_inventory_gap_share := roundTo 3 urg.2.2
      decision_locked := false
      next_decision_in_sec := 0
      feedback_multiplier := roundTo 3 mult
      feedback_events := dget s₂.feedback_events_by_item p.key 0
      urgency := urg.1 })
  let baseNotes : List String :=
    ["Recommendations are generated for the next cook cycle.",
     "Drop sizing is based on current total customer count (drive-thru + in-store) and per-order item averages.",
     "Each item recommendation is rounded to the nearest whole unit.",
     "Recommendations are capped at each item\x27s configured max unit size.",
     "Business impact values are directional estimates for decision support."]
  let notes := match stream_error with
    | some e => baseNotes ++ [("Stream issue: " ++ e)]
    | none => baseNotes
  ({ forecast :=
      { horizon_min := roundTo 1 s₂.forecast_horizon_min
        queue_state := "unavailable"
        trend_customers_per_min := 0
        current_customers := roundTo 1 current_customers
        projected_customers := roundTo 1 current_customers
        confidence := 45/100 }
     recommendations := recs
     impact :=
      { estimated_wait_reduction_min := 0
        estimated_waste_avoided_units := 0
        estimated_cost_saved_usd := 0
        estimated_revenue_protected_usd := 0
        current_wait_time_min := roundTo 1 current_wait }
     notes := notes }, s₂)

/-- `deque(maxlen=n).append`: append on the right, dropping from the left once
`n` entries are present. -/
def dequeAppend (maxlen : ℕ) (h : List (ℚ × ℚ)) (x : ℚ × ℚ) : List (ℚ × ℚ) :=
  let h' := h ++ [x]
  h'.drop (h'.length - maxlen)

/-- Accumulator of the per-item planning loop in `generate` (the loop mutates
`self._inventory` and `self._last_decision_by_item` and accumulates the
recommendation list and the waste/cost tallies). -/
structure PlanAcc where
  inv : List (String × ItemInventoryState)
  ldec : List (String × ℤ)
  recs : List ItemRec
  waste_avoided_units : ℚ
  cost_saved_usd : ℚ
deriving DecidableEq

/-- One iteration of the per-item planning loop of `generate`
(`recommendations.py` lines 567-658).  `s` carries the engine fields the loop
reads but never writes (profiles, feedback maps, thresholds, cook time). -/
def planStep (s : Engine) (due : Bool) (nextSec : ℤ)
    (effective timestamp : ℚ) (acc : PlanAcc) (p : ItemProfile) : PlanAcc :=
  let st := dget acc.inv p.key { ready_units := 0, fryer_lots := [] }
  let base := baselineUnits p
  let readyInv := max 0 (roundToNearestUnit st.ready_units)
  let fryerInv := max 0 (fryerUnits st)
  let available := ((max 0 (readyInv + fryerInv) : ℤ) : ℚ)
  let rawTarget := max 0 (effective * p.units_per_order)
  let mult := dget s.feedback_multiplier_by_item p.key 1
  let target := itemTargetUnits effective mult p
  let recommended :=
    if due then target
    else min (max 0 (dget acc.ldec p.key target)) p.max_unit_size
  let ldec' := if due then dset acc.ldec p.key recommended else acc.ldec
  let inv' :=
    if due && decide (0 < recommended) then
      dset acc.inv p.key
        { st with fryer_lots :=
            st.fryer_lots ++ [{ units := recommended, ready_at := timestamp + s.cook_time_sec }] }
    else acc.inv
  let supply := available + (if due then ((max 0 recommended : ℤ) : ℚ) else 0)
  let urg := urgencyFromInventoryGap s rawTarget supply
  let saved := max 0 (((base - recommended : ℤ) : ℚ))
  { inv := inv'
    ldec := ldec'
    recs := acc.recs ++
      [{ item := p.key
         label := p.label
         recommended_units := recommended
         baseline_units := base
         max_unit_size := p.max_unit_size
         unit_label := unitLabel p.unit_label
         delta_units := recommended - base
         forecast_window_demand_units := roundTo 1 rawTarget
         ready_inventory_units := readyInv
         fryer_inventory_units := fryerInv
         projected_inventory_gap_units := roundTo 1 urg.2.1
         projected_inventory_gap_share := roundTo 3 urg.2.2
         decision_locked := !due
         next_decision_in_sec := nextSec
         feedback_multiplier := roundTo 3 mult
         feedback_events := dget s.feedback_events_by_item p.key 0
         urgency := urg.1 }]
    waste_avoided_units := acc.waste_avoided_units + saved
    cost_saved_usd := acc.cost_saved_usd + saved * p.unit_cost_usd }

/-- Model of `RecommendationEngine.generate`. -/
def generate (s : Engine) (snap : Snapshot) : Response × Engine :=
  let timestamp := snap.timestamp
  let current := snap.total_customers
  let err := match snap.stream_error with
    | some e => if e = "" then none else some e
    | none => none
  if snap.stream_status ≠ "ok" then
    buildUnavailableResponse s current snap.estimated_wait_time_min err
  else
    let s₁ := { s with history := dequeAppend 90 s.history (timestamp, current) }
    let s₂ := ensureFeedbackState s₁
    let trend := trendPerMin s₂.history
    let stabilized := stabilizedCustomerCount s₂.history current
    let projected := max 0 (stabilized + trend * max 0 s₂.forecast_horizon_min)
    let effective := projected
    let s₃ := advanceInventory s₂ timestamp current
    let dd := decisionDue s₃ timestamp
    let acc := s₃.item_profiles.foldl (planStep s₃ dd.1 dd.2 effective timestamp)
      { inv := s₃.inventory, ldec := s₃.last_decision_by_item, recs := [],
        waste_avoided_units := 0, cost_saved_usd := 0 }
    let s₄ := { s₃ with inventory := acc.inv, last_decision_by_item := acc.ldec }
    let s₅ := if dd.1 then { s₄ with last_decision_timestamp := some timestamp } else s₄
    let queuePressure := clampQ (effective / 24) 0 1
    let waitReduction := clampQ (acc.waste_avoided_units / 8 + queuePressure * (3/2)) (1/5) (16/5)
    let lift := clampQ (waitReduction * (1/40)) 0 (4/25)
    ({ forecast :=
        { horizon_min := roundTo 1 s₃.forecast_horizon_min
          queue_state := stateFromTrend trend
          trend_customers_per_min := roundTo 2 trend
          current_customers := roundTo 1 current
          projected_customers := roundTo 1 projected
          confidence := engineConfidence s₃ snap.processing_fps }
       recommendations := acc.recs
       impact :=
        { estimated_wait_reduction_min := roundTo 1 waitReduction
          estimated_waste_avoided_units := roundTo 1 acc.waste_avoided_units
          estimated_cost_saved_usd := roundTo 2 acc.cost_saved_usd
          estimated_revenue_protected_usd := roundTo 2 (effective * lift * s₃.avg_ticket_usd)
          current_wait_time_min := roundTo 1 snap.estimated_wait_time_min }
       notes :=
        ["Drop sizing is based on projected customer count (drive-thru + in-store) and per-order item averages.",
         "Urgency is based on projected inventory shortfall ratio ((projected demand - available inventory) / projected demand).",
         "Decisions are held for a short interval to reduce recommendation oscillation.",
         "Each item recommendation is rounded to the nearest whole unit.",
         "Recommendations are capped at each item\x27s configured max unit size.",
         "Operator feedback continuously tunes item-level multipliers toward real kitchen behavior.",
         "Business impact values are directional estimates for decision support."] }, s₅)

/-- Return payload of `apply_operator_feedback`. -/
structure FeedbackResult where
  item : String
  action : String
  multiplier_before : ℚ
  multiplier_after : ℚ
  feedback_events : ℕ
deriving DecidableEq

/-- Model of `RecommendationEngine.apply_operator_feedback`.  The Python
method raises `ValueError` for an unknown item key after having run
`_ensure_feedback_state`; the model returns the error together with the
engine state at the moment of the raise.  `action` is taken already
normalized (the Python applies `action.strip().lower()` before comparing). -/
def applyOperatorFeedback (s : Engine) (item_key action : String)
    (recommended_units chosen_units : ℤ) : Except String FeedbackResult × Engine :=
  let s₁ := ensureFeedbackState s
  if dmem s₁.feedback_multiplier_by_item item_key then
    let prior := dget s₁.feedback_multiplier_by_item item_key 1
    let boundedRecommended := max 0 recommended_units
    let boundedChosen := max 0 chosen_units
    let signal :=
      if action = "accept" then 1
      else clampQ ((boundedChosen : ℚ) / (max 1 (boundedRecommended : ℚ))) (13/20) (27/20)
    let smoothing : ℚ := 18/100
    let updated := clampQ ((1 - smoothing) * prior + smoothing * signal) (3/4) (5/4)
    let events := dget s₁.feedback_events_by_item item_key 0 + 1
    (Except.ok
      { item := item_key
        action := action
        multiplier_before := roundTo 3 prior
        multiplier_after := roundTo 3 updated
        feedback_events := events },
     { s₁ with
        feedback_multiplier_by_item := dset s₁.feedback_multiplier_by_item item_key updated,
        feedback_events_by_item := dset s₁.feedback_events_by_item item_key events })
  else
    (Except.error ("Unknown recommendation item " ++ item_key ++ "."), s₁)

/-- The default item catalog built in `RecommendationEngine.__init__`. -/
def defaultItemProfiles : List ItemProfile :=
  [{ key := "fillets", label := "Chicken Fillets", units_per_order := 58/100,
     batch_size := 8, max_unit_size := 24, baseline_drop_units := 16,
     unit_cost_usd := 92/100, unit_label := "fillets" },
   { key := "nuggets", label := "Nuggets", units_per_order := 36/100,
     batch_size := 6, max_unit_size := 20, baseline_drop_units := 12,
     unit_cost_usd := 68/100, unit_label := "cups" },
   { key := "fries", label := "Fries", units_per_order := 72/100,
     batch_size := 10, max_unit_size := 28, baseline_drop_units := 18,
     unit_cost_usd := 44/100, unit_label := "cups" },
   { key := "strips", label := "Strips", units_per_order := 15/100,
     batch_size := 8, max_unit_size := 20, baseline_drop_units := 8,
     unit_cost_usd := 86/100, unit_label := "strips" }]

/-- Model of `RecommendationEngine.__init__` with every environment override
absent, so every `_env_float` call returns its default. -/
def initEngine : Engine :=
  let thresholds := initUrgencyThresholds (15/100) (35/100)
  resetFeedbackState (resetInventoryState
    { history := []
      forecast_horizon_min := 8
      drop_cadence_min := 4
      decision_interval_sec := max 5 30
      cook_time_sec := max 30 (4 * 60)
      avg_ticket_usd := 21/2
      medium_urgency_shortfall := thresholds.1
      high_urgency_shortfall := thresholds.2
      item_profiles := defaultItemProfiles
      inventory := []
      last_inventory_timestamp := none
      last_decision_timestamp := none
      last_decision_by_item := []
      feedback_multiplier_by_item := []
      feedback_events_by_item := [] })

/-! ### Outcome evaluator (`src/app/analytics_store.py`) -/

/-- One row of the `recommendation_feedback` table.  Timestamps are seconds
(ISO-8601 strings compare like instants for the uniform UTC format the store
writes).  `id` is the integer primary key. -/
structure FeedbackRecord where
  id : ℕ
  timestamp : ℚ
  baseline_units : ℤ
  chosen_units : ℤ
  units_per_order : ℚ
  unit_cost_usd : ℚ
  avg_ticket_usd : ℚ
  forecast_horizon_min : ℚ
  projected_customers : ℚ
  outcome_status : String
  evaluated_at : Option ℚ
  actual_customers : Option ℚ
  forecast_error_customers : Option ℚ
  realized_waste_delta_units : Option ℚ
  realized_cost_delta_usd : Option ℚ
  realized_revenue_delta_usd : Option ℚ
deriving DecidableEq

/-- The columns of an `analytics_samples` row read by the evaluator. -/
structure AnalyticsSample where
  timestamp : ℚ
  stream_status : String
  total_customers : ℚ
deriving DecidableEq

/-- The evaluation window lower/upper bound and stream-status filter of the
inner `SELECT` in `_evaluate_feedback_outcomes`. -/
def qualifyingSamples (lo hi : ℚ) (samples : List AnalyticsSample) :
    List AnalyticsSample :=
  samples.filter (fun sm =>
    decide (lo ≤ sm.timestamp) && decide (sm.timestamp ≤ hi) &&
    (sm.stream_status == "ok" || sm.stream_status == "degraded"))

/-- `evaluation_cutoff = feedback_timestamp + timedelta(minutes=max(0.5, horizon))`,
in seconds. -/
def dueCutoff (row : FeedbackRecord) : ℚ :=
  row.timestamp + 60 * max (1/2) row.forecast_horizon_min

/-- The new column values `_evaluate_feedback_outcomes` computes for one due
pending row (from the row as fetched, exactly as the SQL `UPDATE` does). -/
def evalRow (now : ℚ) (samples : List AnalyticsSample) (row : FeedbackRecord) :
    FeedbackRecord :=
  let qs := qualifyingSamples row.timestamp (dueCutoff row) samples
  if qs.length = 0 then
    { row with outcome_status := "insufficient_data", evaluated_at := some now }
  else
    let actual := (qs.map (fun sm => sm.total_customers)).sum / (qs.length : ℚ)
    let upo := max (1/100) row.units_per_order
    let baseline := max 0 row.baseline_units
    let chosen := max 0 row.chosen_units
    let required := max 0 (roundHalfEven (actual * upo))
    let wasteDelta := ((max 0 (baseline - required) - max 0 (chosen - required) : ℤ) : ℚ)
    let shortfallDelta := ((max 0 (required - baseline) - max 0 (required - chosen) : ℤ) : ℚ)
    { row with
      outcome_status := "evaluated"
      evaluated_at := some now
      actual_customers := some actual
      forecast_error_customers := some (actual - row.projected_customers)
      realized_waste_delta_units := some wasteDelta
      realized_cost_delta_usd := some (wasteDelta * max 0 row.unit_cost_usd)
      realized_revenue_delta_usd := some ((shortfallDelta / upo) * max 0 row.avg_ticket_usd) }

/-- Model of `AnalyticsStore._evaluate_feedback_outcomes`: fetch the (at most
1000) oldest pending rows, then for each one whose evaluation cutoff has
passed, apply the corresponding `UPDATE ... WHERE id = row.id` to the table.
The table list is in `id` order, as the `SELECT` returns it. -/
def evaluateFeedbackOutcomes (now : ℚ) (samples : List AnalyticsSample)
    (records : List FeedbackRecord) : List FeedbackRecord :=
  let pendingRows := (records.filter (fun r => r.outcome_status == "pending")).take 1000
  pendingRows.foldl
    (fun table row =>
      if now < dueCutoff row then table
      else table.map (fun r => if r.id == row.id then evalRow now samples row else r))
    records

/-! ### Basic lemmas -/

theorem clampQ_le (x lo hi : ℚ) (h : lo ≤ hi) : clampQ x lo hi ≤ hi := by
  unfold clampQ
  exact max_le h (min_le_left _ _)

theorem le_clampQ (x lo hi : ℚ) : lo ≤ clampQ x lo hi := le_max_left _ _

theorem clampQ_eq_self (x lo hi : ℚ) (h₁ : lo ≤ x) (h₂ : x ≤ hi) :
    clampQ x lo hi = x := by
  unfold clampQ
  rw [min_eq_right h₂, max_eq_right h₁]

theorem roundToNearestUnit_nonneg (u : ℚ) : 0 ≤ roundToNearestUnit u := by
  unfold roundToNearestUnit
  split
  · exact le_refl 0
  · rename_i h
    push_neg at h
    rw [Int.le_floor]
    push_cast
    linarith

/-- Re-clamping a capped nonnegative quantity with the same cap is the
identity: this is why a held decision `min(max(0, held), max_units)` returns
exactly the stored `min(rounded, max_units)`. -/
theorem reclamp_eq (r maxU : ℤ) (hr : 0 ≤ r) :
    min (max 0 (min r maxU)) maxU = min r maxU := by
  omega

/-! ### Claim C5: trend estimator -/

/-- C5: the trend estimator returns 0 customers-per-minute whenever the
history holds fewer than 2 samples or the time difference between newest and
oldest sample is non-positive (in particular for any two-point history with
equal timestamps); otherwise it returns the count difference between newest
and oldest sample divided by the elapsed minutes between them. -/
theorem claim_C5_trend_estimator (h : List (ℚ × ℚ)) :
    (h.length < 2 → trendPerMin h = 0) ∧
    (∀ t c₀ c₁ : ℚ, trendPerMin [(t, c₀), (t, c₁)] = 0) ∧
    (∀ t₀ c₀ t₁ c₁ : ℚ, 2 ≤ h.length → h.head? = some (t₀, c₀) →
      h.getLast? = some (t₁, c₁) →
      ((t₁ - t₀ ≤ 0 → trendPerMin h = 0) ∧
       (0 < t₁ - t₀ → trendPerMin h = (c₁ - c₀) / ((t₁ - t₀) / 60)))) := by
  refine ⟨?_, ?_, ?_⟩
  · intro hlen
    unfold trendPerMin
    rw [if_pos hlen]
  · intro t c₀ c₁
    unfold trendPerMin
    norm_num [List.getLast?]
  · intro t₀ c₀ t₁ c₁ hlen hhead hlast
    have hnotlt : ¬ h.length < 2 := by omega
    constructor
    · intro hle
      unfold trendPerMin
      rw [if_neg hnotlt, hhead, hlast]
      have : (t₁ - t₀) / 60 ≤ 0 := by
        apply div_nonpos_of_nonpos_of_nonneg hle
        norm_num
      simp [this]
    · intro hgt
      unfold trendPerMin
      rw [if_neg hnotlt, hhead, hlast]
      have : ¬ (t₁ - t₀) / 60 ≤ 0 := by
        push_neg
        positivity
      simp [this]

/-- Witness for C5 at the two-point history `[(0, 5), (60, 9)]`: one minute
apart, the trend is 4 customers per minute. -/
theorem claim_C5_trend_estimator_witness :
    trendPerMin [((0 : ℚ), (5 : ℚ)), (60, 9)] = (9 - 5) / ((60 - 0) / 60) := by
  have h := (claim_C5_trend_estimator [((0 : ℚ), (5 : ℚ)), (60, 9)]).2.2
    0 5 60 9 (by norm_num) (by norm_num) (by norm_num [List.getLast?])
  exact h.2 (by norm_num)

/-! ### Claim C3: urgency threshold initialization -/

/-- Modelled from the claim/spec wording of C3, for comparison with the
source: clamp both thresholds to `[0, 1]`, then, if high is below medium,
swap the two values. -/
def initUrgencyThresholdsSwapped (cfgMedium cfgHigh : ℚ) : ℚ × ℚ :=
  let medium := clampQ cfgMedium 0 1
  let high := clampQ cfgHigh 0 1
  if high < medium then (high, medium) else (medium, high)

/-- Counterexample to C3 as stated: with configured medium `0.5` and high
`0.2`, the source keeps medium at `0.5` and raises high to `0.5`, whereas
swapping the two values would have made medium `0.2`.  The constructor does
not swap the thresholds. -/
theorem claim_C3_counterexample :
    initUrgencyThresholds (1/2) (1/5) = (1/2, 1/2) ∧
    initUrgencyThresholdsSwapped (1/2) (1/5) = (1/5, 1/2) ∧
    initUrgencyThresholds (1/2) (1/5) ≠ initUrgencyThresholdsSwapped (1/2) (1/5) := by
  refine ⟨?_, ?_, ?_⟩ <;>
    norm_num [initUrgencyThresholds, initUrgencyThresholdsSwapped, clampQ,
      Prod.ext_iff]

/-- C3 (amended): at engine construction each urgency shortfall threshold is
clamped to `[0, 1]`, and if the clamped high threshold is below the clamped
medium threshold then the high threshold is raised to the medium value (the
medium threshold is left unchanged), so that high ≥ medium holds afterwards.
`initEngine` applies exactly this computation to the configured defaults. -/
theorem claim_C3_amended (cfgMedium cfgHigh : ℚ) :
    (0 ≤ (initUrgencyThresholds cfgMedium cfgHigh).1 ∧
      (initUrgencyThresholds cfgMedium cfgHigh).1 ≤ 1) ∧
    (0 ≤ (initUrgencyThresholds cfgMedium cfgHigh).2 ∧
      (initUrgencyThresholds cfgMedium cfgHigh).2 ≤ 1) ∧
    (initUrgencyThresholds cfgMedium cfgHigh).1 ≤ (initUrgencyThresholds cfgMedium cfgHigh).2 ∧
    (initUrgencyThresholds cfgMedium cfgHigh).1 = clampQ cfgMedium 0 1 ∧
    (initUrgencyThresholds cfgMedium cfgHigh).2 =
      max (clampQ cfgMedium 0 1) (clampQ cfgHigh 0 1) ∧
    initEngine.medium_urgency_shortfall = (initUrgencyThresholds (15/100) (35/100)).1 ∧
    initEngine.high_urgency_shortfall = (initUrgencyThresholds (15/100) (35/100)).2 := by
  have hm₀ : (0 : ℚ) ≤ clampQ cfgMedium 0 1 := le_clampQ _ _ _
  have hm₁ : clampQ cfgMedium 0 1 ≤ 1 := clampQ_le _ _ _ (by norm_num)
  have hh₀ : (0 : ℚ) ≤ clampQ cfgHigh 0 1 := le_clampQ _ _ _
  have hh₁ : clampQ cfgHigh 0 1 ≤ 1 := clampQ_le _ _ _ (by norm_num)
  have hinit₁ : initEngine.medium_urgency_shortfall =
      (initUrgencyThresholds (15/100) (35/100)).1 := rfl
  have hinit₂ : initEngine.high_urgency_shortfall =
      (initUrgencyThresholds (15/100) (35/100)).2 := rfl
  refine ⟨?_, ?_, ?_, ?_, ?_, hinit₁, hinit₂⟩ <;>
    · unfold initUrgencyThresholds
      dsimp only
      split_ifs with hlt
      all_goals
        first
        | exact ⟨hm₀, hm₁⟩
        | exact ⟨hh₀, hh₁⟩
        | exact le_refl _
        | exact le_of_not_lt hlt
        | exact rfl
        | exact (max_eq_left (le_of_lt hlt)).symm
        | exact (max_eq_right (le_of_not_lt hlt)).symm

/-! ### Claim C7: rounding and capping -/

/-- The item configuration of the C7 example: half a unit per order, maximum
unit size 10. -/
def demoProfile : ItemProfile :=
  { key := "demo", label := "Demo", units_per_order := 1/2, batch_size := 1,
    max_unit_size := 10, baseline_drop_units := 0, unit_cost_usd := 0,
    unit_label := "units" }

/-- C7: the planner rounds the adjusted target to the nearest integer unit
with half-up ties — for positive input the rounded value `n` satisfies
`u - 1/2 < n ≤ u + 1/2` — and then caps it at the item maximum unit size; in
particular for `units_per_order = 0.5`, `max_unit_size = 10`, 21 effective
customers and multiplier 1, the raw target `10.5` rounds to `11` and is
capped to `10`. -/
theorem claim_C7_round_and_cap :
    (∀ u : ℚ, u ≤ 0 → roundToNearestUnit u = 0) ∧
    (∀ u : ℚ, 0 < u →
      u - 1/2 < (roundToNearestUnit u : ℚ) ∧ (roundToNearestUnit u : ℚ) ≤ u + 1/2) ∧
    (∀ (e m : ℚ) (p : ItemProfile),
      itemTargetUnits e m p =
        min (roundToNearestUnit (max 0 (e * p.units_per_order) * m)) p.max_unit_size ∧
      itemTargetUnits e m p ≤ p.max_unit_size) ∧
    max 0 ((21 : ℚ) * demoProfile.units_per_order) * 1 = 21/2 ∧
    roundToNearestUnit (21/2) = 11 ∧
    itemTargetUnits 21 1 demoProfile = 10 := by
  have hround : ∀ u : ℚ, 0 < u → roundToNearestUnit u = ⌊u + 1/2⌋ := by
    intro u hu
    unfold roundToNearestUnit
    rw [if_neg (not_le_of_lt hu)]
  refine ⟨?_, ?_, ?_, ?_, ?_, ?_⟩
  · intro u hu
    unfold roundToNearestUnit
    rw [if_pos hu]
  · intro u hu
    rw [hround u hu]
    constructor
    · have := Int.lt_floor_add_one (u + 1/2)
      push_cast at this ⊢
      linarith
    · exact_mod_cast Int.floor_le (u + 1/2)
  · intro e m p
    refine ⟨rfl, ?_⟩
    exact min_le_right _ _
  · norm_num [demoProfile]
  · have h : roundToNearestUnit (21/2 : ℚ) = ⌊(21 : ℚ)/2 + 1/2⌋ := hround _ (by norm_num)
    rw [h]
    norm_num [Int.floor_eq_iff]
  · unfold itemTargetUnits
    have h1 : max (0:ℚ) ((21 : ℚ) * demoProfile.units_per_order) * 1 = 21/2 := by
      norm_num [demoProfile]
    rw [h1]
    have h : roundToNearestUnit (21/2 : ℚ) = ⌊(21 : ℚ)/2 + 1/2⌋ :=
      hround _ (by norm_num)
    rw [h]
    norm_num [demoProfile, Int.floor_eq_iff]

/-- Witness for C7: the half-up characterization applied at `u = 21/2`. -/
theorem claim_C7_round_and_cap_witness :
    (21 : ℚ)/2 - 1/2 < (roundToNearestUnit (21/2) : ℚ) ∧
    (roundToNearestUnit ((21 : ℚ)/2) : ℚ) ≤ 21/2 + 1/2 :=
  claim_C7_round_and_cap.2.1 (21/2) (by norm_num)


/-! ### Lemmas about the `ensure` state normalizations -/

theorem dmem_dset {α : Type} (m : List (String × α)) (k k' : String) (v : α) :
    dmem (dset m k v) k' = (dmem m k' || k = k') := by
  unfold dmem
  by_cases hk : k = k'
  · subst hk
    simp
  · rw [dlookup_dset_ne m k k' v hk]
    simp [hk]

theorem dmem_eq_mem_keys {α : Type} (m : List (String × α)) (k : String) :
    dmem m k = decide (k ∈ m.map (fun kv => kv.1)) := by
  induction m with
  | nil => simp [dmem]
  | cons hd t ih =>
    obtain ⟨k₁, v₁⟩ := hd
    by_cases h : k₁ = k
    · simp [dmem, h]
    · have h' : ¬ (k = k₁) := fun hh => h hh.symm
      unfold dmem at ih ⊢
      rw [dlookup_cons, if_neg h, ih]
      simp [h']

theorem dmem_storeAll {α β : Type} (key : β → String) (v : β → α)
    (l : List β) (m : List (String × α)) (k : String) :
    dmem (storeAll key v l m) k = (dmem m k || decide (k ∈ l.map key)) := by
  unfold storeAll
  induction l generalizing m with
  | nil => simp
  | cons hd t ih =>
    rw [List.foldl_cons, ih, dmem_dset]
    by_cases h : key hd = k
    · simp [h]
    · have h' : ¬ (k = key hd) := fun hh => h hh.symm
      simp [h, h']

theorem dmem_installDefaults {α β : Type} (key : β → String) (v : β → α)
    (l : List β) (m : List (String × α)) (k : String) :
    dmem (installDefaults key v l m) k = (dmem m k || decide (k ∈ l.map key)) := by
  unfold installDefaults
  induction l generalizing m with
  | nil => simp
  | cons hd t ih =>
    rw [List.foldl_cons, ih, dmem_dsetdefault]
    by_cases h : key hd = k
    · simp [h]
    · have h' : ¬ (k = key hd) := fun hh => h hh.symm
      simp [h, h']

theorem dmem_activeProfiles (ps : List ItemProfile) (k : String) :
    dmem (activeProfiles ps) k = decide (k ∈ ps.map (fun p => p.key)) := by
  unfold activeProfiles
  rw [dmem_storeAll]
  simp [dmem]

theorem dlookup_installDefaults_of_isSome {α β : Type} (key : β → String)
    (v : β → α) (l : List β) (m : List (String × α)) (k : String)
    (h : (dlookup m k).isSome) :
    dlookup (installDefaults key v l m) k = dlookup m k := by
  unfold installDefaults
  induction l generalizing m with
  | nil => simp
  | cons hd t ih =>
    rw [List.foldl_cons]
    have hstep : dlookup (dsetdefault m (key hd) (v hd)) k = dlookup m k := by
      rw [dlookup_dsetdefault, if_neg]
      rintro ⟨heq, hnone⟩
      rw [heq] at hnone
      rw [Option.isNone_iff_eq_none] at hnone
      rw [hnone] at h
      simp at h
    rw [ih _ (by rw [hstep]; exact h), hstep]

theorem dget_installDefaults_default {α β : Type} (key : β → String)
    (l : List β) (m : List (String × α)) (k : String) (d : α) :
    dget (installDefaults key (fun _ => d) l m) k d = dget m k d := by
  unfold installDefaults
  induction l generalizing m with
  | nil => simp
  | cons hd t ih =>
    rw [List.foldl_cons]
    rw [ih, dget_dsetdefault_default]

/-- Membership in the feedback-multiplier dict after `_ensure_feedback_state`
is exactly membership of the key in the current catalog. -/
theorem dmem_ensureFeedbackState_mult (s : Engine) (k : String) :
    dmem (ensureFeedbackState s).feedback_multiplier_by_item k =
      decide (k ∈ s.item_profiles.map (fun p => p.key)) := by
  unfold ensureFeedbackState
  dsimp only
  rw [dmem_installDefaults]
  have hkeys : decide (k ∈ (activeProfiles s.item_profiles).map (fun kp => kp.1)) =
      dmem (activeProfiles s.item_profiles) k := (dmem_eq_mem_keys _ _).symm
  rw [hkeys, dmem_activeProfiles]
  conv_lhs => rw [dmem, dlookup_filter_key, dmem_activeProfiles]
  by_cases hk : k ∈ s.item_profiles.map (fun p => p.key) <;> simp [hk, dmem]

/-- For a key in the current catalog, `_ensure_feedback_state` does not change
the observable feedback multiplier. -/
theorem dget_ensureFeedbackState_mult (s : Engine) (k : String)
    (hk : k ∈ s.item_profiles.map (fun p => p.key)) :
    dget (ensureFeedbackState s).feedback_multiplier_by_item k 1 =
      dget s.feedback_multiplier_by_item k 1 := by
  unfold ensureFeedbackState
  dsimp only
  rw [dget_installDefaults_default]
  unfold dget
  rw [dlookup_filter_key, dmem_activeProfiles]
  simp [hk]

/-- For a key in the current catalog, `_ensure_feedback_state` does not change
the observable feedback event counter. -/
theorem dget_ensureFeedbackState_events (s : Engine) (k : String)
    (hk : k ∈ s.item_profiles.map (fun p => p.key)) :
    dget (ensureFeedbackState s).feedback_events_by_item k 0 =
      dget s.feedback_events_by_item k 0 := by
  unfold ensureFeedbackState
  dsimp only
  rw [dget_installDefaults_default]
  unfold dget
  rw [dlookup_filter_key, dmem_activeProfiles]
  simp [hk]

/-! ### Claim C6: feedback multiplier dynamics -/

/-- On a successful feedback call the stored multiplier map is the ensured
map with the item key updated to the exponentially-smoothed, clamped blend. -/
theorem applyOperatorFeedback_ok_multiplier (s : Engine) (key action : String)
    (recQ chosenQ : ℤ) (res : FeedbackResult) (s' : Engine)
    (h : applyOperatorFeedback s key action recQ chosenQ = (Except.ok res, s')) :
    s'.feedback_multiplier_by_item =
      dset (ensureFeedbackState s).feedback_multiplier_by_item key
        (clampQ ((1 - 18/100) * dget (ensureFeedbackState s).feedback_multiplier_by_item key 1 +
          (18/100) * (if action = "accept" then (1 : ℚ)
            else clampQ (((max 0 chosenQ : ℤ) : ℚ) / max 1 ((max 0 recQ : ℤ) : ℚ))
              (13/20) (27/20)))
          (3/4) (5/4)) := by
  unfold applyOperatorFeedback at h
  dsimp only at h
  by_cases hmem : dmem (ensureFeedbackState s).feedback_multiplier_by_item key
  · rw [if_pos hmem] at h
    simp only [Prod.mk.injEq] at h
    obtain ⟨-, hs'⟩ := h
    rw [← hs']
  · rw [if_neg hmem] at h
    simp at h

/-- The signal the source computes from the clamped nonnegative quantities
equals the claim formula `clamp(chosenQty / max(1, recommendedQty), 0.65, 1.35)`
for all integer inputs. -/
theorem feedback_signal_eq_claim (recQ chosenQ : ℤ) :
    clampQ (((max 0 chosenQ : ℤ) : ℚ) / max 1 ((max 0 recQ : ℤ) : ℚ)) (13/20) (27/20) =
      clampQ ((chosenQ : ℚ) / ((max 1 recQ : ℤ) : ℚ)) (13/20) (27/20) := by
  have hden : max (1 : ℚ) ((max 0 recQ : ℤ) : ℚ) = ((max 1 recQ : ℤ) : ℚ) := by
    push_cast
    rw [← max_assoc]
    norm_num
  rw [hden]
  rcases le_or_lt 0 chosenQ with hc | hc
  · rw [max_eq_right hc]
  · have hD : (1 : ℚ) ≤ ((max 1 recQ : ℤ) : ℚ) := by
      have : (1 : ℤ) ≤ max 1 recQ := le_max_left _ _
      exact_mod_cast this
    have hnum : ((max 0 chosenQ : ℤ) : ℚ) = 0 := by
      rw [max_eq_left (le_of_lt hc)]
      norm_num
    have hratio : (chosenQ : ℚ) / ((max 1 recQ : ℤ) : ℚ) < 0 := by
      apply div_neg_of_neg_of_pos
      · exact_mod_cast hc
      · linarith
    rw [hnum]
    unfold clampQ
    rw [zero_div]
    rw [min_eq_right (by norm_num : (0 : ℚ) ≤ 27/20)]
    rw [min_eq_right (by linarith : (chosenQ : ℚ) / ((max 1 recQ : ℤ) : ℚ) ≤ 27/20)]
    rw [max_eq_left (by norm_num : (0 : ℚ) ≤ 13/20)]
    rw [max_eq_left (by linarith : (chosenQ : ℚ) / ((max 1 recQ : ℤ) : ℚ) ≤ 13/20)]

/-- C6: every successful operator-feedback call sets the stored multiplier to
`clamp(0.82*old + 0.18*signal, 0.75, 1.25)` where the signal is `1` for an
`accept` action and `clamp(chosenQty / max(1, recommendedQty), 0.65, 1.35)`
otherwise (part 1); hence after any call the stored multiplier lies in
`[0.75, 1.25]`, so it remains in that range over every sequence of calls
(part 2); and for `accept` the clamp is inactive on `[0.75, 1.25]` and the
update moves the multiplier toward `1` without crossing it (part 3). -/
theorem claim_C6_feedback_multiplier :
    (∀ (s : Engine) (key action : String) (recQ chosenQ : ℤ)
        (res : FeedbackResult) (s' : Engine),
      applyOperatorFeedback s key action recQ chosenQ = (Except.ok res, s') →
      dget s'.feedback_multiplier_by_item key 1 =
        clampQ ((82/100) * dget (ensureFeedbackState s).feedback_multiplier_by_item key 1 +
          (18/100) * (if action = "accept" then (1 : ℚ)
            else clampQ ((chosenQ : ℚ) / ((max 1 recQ : ℤ) : ℚ)) (13/20) (27/20)))
          (3/4) (5/4)) ∧
    (∀ (s : Engine) (key action : String) (recQ chosenQ : ℤ)
        (res : FeedbackResult) (s' : Engine),
      applyOperatorFeedback s key action recQ chosenQ = (Except.ok res, s') →
      3/4 ≤ dget s'.feedback_multiplier_by_item key 1 ∧
        dget s'.feedback_multiplier_by_item key 1 ≤ 5/4) ∧
    (∀ m : ℚ, 3/4 ≤ m → m ≤ 5/4 →
      clampQ ((82/100) * m + (18/100) * 1) (3/4) (5/4) = (82/100) * m + 18/100 ∧
      (m ≤ 1 → m ≤ (82/100) * m + 18/100 ∧ (82/100) * m + 18/100 ≤ 1) ∧
      (1 ≤ m → (82/100) * m + 18/100 ≤ m ∧ 1 ≤ (82/100) * m + 18/100) ∧
      |((82/100) * m + 18/100) - 1| = (82/100) * |m - 1|) := by
  have hmain : ∀ (s : Engine) (key action : String) (recQ chosenQ : ℤ)
      (res : FeedbackResult) (s' : Engine),
      applyOperatorFeedback s key action recQ chosenQ = (Except.ok res, s') →
      dget s'.feedback_multiplier_by_item key 1 =
        clampQ ((82/100) * dget (ensureFeedbackState s).feedback_multiplier_by_item key 1 +
          (18/100) * (if action = "accept" then (1 : ℚ)
            else clampQ ((chosenQ : ℚ) / ((max 1 recQ : ℤ) : ℚ)) (13/20) (27/20)))
          (3/4) (5/4) := by
    intro s key action recQ chosenQ res s' h
    rw [applyOperatorFeedback_ok_multiplier s key action recQ chosenQ res s' h]
    unfold dget
    rw [dlookup_dset_self]
    rw [feedback_signal_eq_claim]
    norm_num
  refine ⟨hmain, ?_, ?_⟩
  · intro s key action recQ chosenQ res s' h
    rw [hmain s key action recQ chosenQ res s' h]
    exact ⟨le_clampQ _ _ _, clampQ_le _ _ _ (by norm_num)⟩
  · intro m hm₀ hm₁
    have hblend₀ : (3 : ℚ)/4 ≤ (82/100) * m + (18/100) * 1 := by linarith
    have hblend₁ : (82/100 : ℚ) * m + (18/100) * 1 ≤ 5/4 := by linarith
    refine ⟨?_, ?_, ?_, ?_⟩
    · rw [clampQ_eq_self _ _ _ hblend₀ hblend₁]
      ring
    · intro hle
      constructor <;> linarith
    · intro hge
      constructor <;> linarith
    · have : (82/100 : ℚ) * m + 18/100 - 1 = (82/100) * (m - 1) := by ring
      rw [this, abs_mul]
      norm_num

/-- Concrete feedback call used as the C6 witness: an `override` of a
recommendation of 10 units with 13 chosen units, on the freshly built
engine. -/
def demoFeedback : Except String FeedbackResult × Engine :=
  applyOperatorFeedback initEngine ("fillets") ("override") 10 13

/-- The result payload `demoFeedback` produces. -/
def demoFeedbackResult : FeedbackResult :=
  { item := "fillets", action := "override", multiplier_before := 1,
    multiplier_after := 527/500, feedback_events := 1 }

/-- Witness for C6: the bounds of part 2 instantiated at the concrete call. -/
theorem claim_C6_feedback_multiplier_witness :
    3/4 ≤ dget demoFeedback.2.feedback_multiplier_by_item ("fillets") 1 ∧
      dget demoFeedback.2.feedback_multiplier_by_item ("fillets") 1 ≤ 5/4 := by
  have hcall : applyOperatorFeedback initEngine ("fillets") ("override") 10 13 =
      (Except.ok demoFeedbackResult, demoFeedback.2) := by
    have hr1 : roundTo 3 (1 : ℚ) = 1 := by
      unfold roundTo roundHalfEven
      norm_num
    have hr2 : roundTo 3 (527/500 : ℚ) = 527/500 := by
      unfold roundTo roundHalfEven
      norm_num
    have hso : ("override" : String) = "accept" ↔ False := by simp
    have h1 : (applyOperatorFeedback initEngine ("fillets") ("override") 10 13).1 =
        Except.ok demoFeedbackResult := by
      norm_num [applyOperatorFeedback, ensureFeedbackState, activeProfiles,
        storeAll, installDefaults, initEngine, resetFeedbackState,
        resetInventoryState, initUrgencyThresholds, clampQ, defaultItemProfiles,
        dset, dsetdefault, dmem, dlookup, dget, demoFeedbackResult, hr1, hr2, hso]
    exact Prod.ext h1 rfl
  exact claim_C6_feedback_multiplier.2.1 initEngine ("fillets") ("override")
    10 13 demoFeedbackResult demoFeedback.2 hcall

/-! ### Claim C9: unknown item key in feedback submission -/

/-- C9: `apply_operator_feedback` fails with the unknown-item error exactly
when the item key is not in the current catalog, and on that failure the
observable feedback multiplier and event counter of every catalog item are
unchanged. -/
theorem claim_C9_unknown_item (s : Engine) (key action : String)
    (recQ chosenQ : ℤ) :
    ((applyOperatorFeedback s key action recQ chosenQ).1 =
        Except.error ("Unknown recommendation item " ++ key ++ ".") ↔
      key ∉ s.item_profiles.map (fun p => p.key)) ∧
    (key ∉ s.item_profiles.map (fun p => p.key) →
      ∀ k ∈ s.item_profiles.map (fun p => p.key),
        dget (applyOperatorFeedback s key action recQ chosenQ).2.feedback_multiplier_by_item k 1 =
          dget s.feedback_multiplier_by_item k 1 ∧
        dget (applyOperatorFeedback s key action recQ chosenQ).2.feedback_events_by_item k 0 =
          dget s.feedback_events_by_item k 0) := by
  have hm := dmem_ensureFeedbackState_mult s key
  unfold applyOperatorFeedback
  dsimp only
  by_cases hk : key ∈ s.item_profiles.map (fun p => p.key)
  · have hmem : dmem (ensureFeedbackState s).feedback_multiplier_by_item key = true := by
      rw [hm]; simpa using hk
    rw [if_pos hmem]
    refine ⟨⟨fun habs => ?_, fun hnot => absurd hk hnot⟩, fun hnot => absurd hk hnot⟩
    simp at habs
  · have hmem : ¬ dmem (ensureFeedbackState s).feedback_multiplier_by_item key = true := by
      rw [hm]; simpa using hk
    rw [if_neg hmem]
    refine ⟨⟨fun _ => hk, fun _ => rfl⟩, ?_⟩
    intro _ k hkmem
    exact ⟨dget_ensureFeedbackState_mult s k hkmem,
      dget_ensureFeedbackState_events s k hkmem⟩

/-- Witness for C9: submitting feedback for the key `bogus` on the freshly
built engine fails with the unknown-item error and leaves the `fillets`
multiplier and event counter unchanged. -/
theorem claim_C9_unknown_item_witness :
    (applyOperatorFeedback initEngine ("bogus") ("accept") 1 1).1 =
      Except.error ("Unknown recommendation item " ++ "bogus" ++ ".") ∧
    dget (applyOperatorFeedback initEngine ("bogus") ("accept") 1 1).2.feedback_multiplier_by_item
        ("fillets") 1 =
      dget initEngine.feedback_multiplier_by_item ("fillets") 1 ∧
    dget (applyOperatorFeedback initEngine ("bogus") ("accept") 1 1).2.feedback_events_by_item
        ("fillets") 0 =
      dget initEngine.feedback_events_by_item ("fillets") 0 := by
  have hnot : ("bogus" : String) ∉ initEngine.item_profiles.map (fun p => p.key) := by
    simp [initEngine, resetFeedbackState, resetInventoryState, defaultItemProfiles]
  have hf : ("fillets" : String) ∈ initEngine.item_profiles.map (fun p => p.key) := by
    simp [initEngine, resetFeedbackState, resetInventoryState, defaultItemProfiles]
  have h := claim_C9_unknown_item initEngine ("bogus") ("accept") 1 1
  exact ⟨h.1.2 hnot, (h.2 hnot ("fillets") hf).1, (h.2 hnot ("fillets") hf).2⟩

/-! ### Claim C2: inventory conservation -/

/-- The cook-lot commitment `generate` performs on a due decision with a
positive recommended quantity (`recommendations.py` lines 585-591): append a
lot of `q` units maturing `cook_time` seconds after the decision timestamp. -/
def commitLot (cook_time t : ℚ) (q : ℤ) (st : ItemInventoryState) : ItemInventoryState :=
  { st with fryer_lots := st.fryer_lots ++ [{ units := q, ready_at := t + cook_time }] }

/-- One observable event of a single item inventory over time: an inventory
advance at time `t` (the claim scenario fixes the customer demand at zero) or
a cook-lot commitment of `q` units decided at time `t`. -/
inductive InvOp where
  | advance (t : ℚ)
  | commit (q : ℤ) (t : ℚ)
deriving DecidableEq

/-- A single item slice of the engine inventory state, extended with running
tallies of the promoted and committed cook-lot units. -/
structure ItemSim where
  last_inventory_timestamp : Option ℚ
  st : ItemInventoryState
  promoted : ℤ
  committed : ℤ
deriving DecidableEq

/-- Semantics of one `InvOp` on a single item, following
`_advance_inventory` (first call only records the timestamp; a non-positive
elapsed time is a no-op; otherwise `advanceItem` runs, with customer load 0)
and the cook-lot append of `generate`.  `promoted` accumulates the units of
the lots the promotion loop pops; `committed` accumulates committed units. -/
def stepInvOp (p : ItemProfile) (cadence cook : ℚ) (sim : ItemSim) : InvOp → ItemSim
  | .advance t =>
      match sim.last_inventory_timestamp with
      | none => { sim with last_inventory_timestamp := some t }
      | some last =>
          let elapsed := max 0 (t - last)
          if elapsed ≤ 0 then sim
          else
            { last_inventory_timestamp := some t
              st := advanceItem cadence 0 t elapsed p sim.st
              promoted := sim.promoted + ((popMatured t sim.st.fryer_lots).1.map
                (fun l => l.units)).sum
              committed := sim.committed }
  | .commit q t =>
      { sim with st := commitLot cook t q sim.st, committed := sim.committed + q }

/-- Run a sequence of inventory events. -/
def runInvOps (p : ItemProfile) (cadence cook : ℚ) (ops : List InvOp)
    (sim : ItemSim) : ItemSim :=
  ops.foldl (stepInvOp p cadence cook) sim

/-- Initial single-item state: some ready stock, no in-flight lots, no
recorded advance yet. -/
def initItemSim (ready₀ : ℚ) : ItemSim :=
  { last_inventory_timestamp := none
    st := { ready_units := ready₀, fryer_lots := [] }
    promoted := 0
    committed := 0 }

/-- Total units across a lot queue. -/
def lotsSum (lots : List FryerLot) : ℤ := (lots.map (fun l => l.units)).sum

theorem popMatured_append (now : ℚ) (l : List FryerLot) :
    (popMatured now l).1 ++ (popMatured now l).2 = l := by
  induction l with
  | nil => rfl
  | cons hd t ih =>
    unfold popMatured
    by_cases h : hd.ready_at ≤ now
    · simp only [h, if_pos]
      simpa using ih
    · simp [h]

theorem popMatured_all (now : ℚ) (l : List FryerLot)
    (h : ∀ lot ∈ l, lot.ready_at ≤ now) : popMatured now l = (l, []) := by
  induction l with
  | nil => rfl
  | cons hd t ih =>
    unfold popMatured
    rw [if_pos (h hd (by simp))]
    rw [ih (fun lot hl => h lot (by simp [hl]))]

theorem lotsSum_split (now : ℚ) (l : List FryerLot) :
    lotsSum l = lotsSum (popMatured now l).1 + lotsSum (popMatured now l).2 := by
  conv_lhs => rw [← popMatured_append now l]
  unfold lotsSum
  simp

/-- The conservation invariant: committed units always equal promoted units
plus the units still sitting in the lot queue (starting from an empty
queue). -/
theorem stepInvOp_conservation (p : ItemProfile) (cadence cook : ℚ)
    (sim : ItemSim) (op : InvOp)
    (h : sim.committed = sim.promoted + lotsSum sim.st.fryer_lots) :
    (stepInvOp p cadence cook sim op).committed =
      (stepInvOp p cadence cook sim op).promoted +
        lotsSum (stepInvOp p cadence cook sim op).st.fryer_lots := by
  cases op with
  | advance t =>
    unfold stepInvOp
    cases hl : sim.last_inventory_timestamp with
    | none => simpa using h
    | some last =>
      dsimp only
      by_cases he : max 0 (t - last) ≤ 0
      · rw [if_pos he]
        exact h
      · rw [if_neg he]
        dsimp only [advanceItem]
        rw [h, lotsSum_split t sim.st.fryer_lots]
        unfold lotsSum
        ring
  | commit q t =>
    unfold stepInvOp commitLot
    dsimp only
    rw [h]
    unfold lotsSum
    simp
    ring

theorem runInvOps_conservation (p : ItemProfile) (cadence cook : ℚ)
    (ops : List InvOp) (sim : ItemSim)
    (h : sim.committed = sim.promoted + lotsSum sim.st.fryer_lots) :
    (runInvOps p cadence cook ops sim).committed =
      (runInvOps p cadence cook ops sim).promoted +
        lotsSum (runInvOps p cadence cook ops sim).st.fryer_lots := by
  induction ops generalizing sim with
  | nil => exact h
  | cons hd t ih =>
    exact ih _ (stepInvOp_conservation p cadence cook sim hd h)

/-- Every lot in the queue after running a trace stems from a commit in the
trace (or was present initially): its ready time is `t + cook` for some
committed `(q, t)`. -/
theorem runInvOps_lots_origin (p : ItemProfile) (cadence cook : ℚ)
    (ops : List InvOp) (sim : ItemSim) :
    ∀ lot ∈ (runInvOps p cadence cook ops sim).st.fryer_lots,
      lot ∈ sim.st.fryer_lots ∨
        ∃ q t, InvOp.commit q t ∈ ops ∧ lot.ready_at = t + cook := by
  induction ops generalizing sim with
  | nil => exact fun lot hl => Or.inl hl
  | cons hd t ih =>
    intro lot hl
    rcases ih _ lot hl with hstep | ⟨q, tc, hmem, hready⟩
    · cases hd with
      | advance ta =>
        unfold stepInvOp at hstep
        rcases hlast : sim.last_inventory_timestamp with _ | last
        · rw [hlast] at hstep
          exact Or.inl hstep
        · rw [hlast] at hstep
          dsimp only at hstep
          by_cases he : max 0 (ta - last) ≤ 0
          · rw [if_pos he] at hstep
            exact Or.inl hstep
          · rw [if_neg he] at hstep
            dsimp only [advanceItem] at hstep
            left
            have := popMatured_append ta sim.st.fryer_lots
            rw [← this]
            exact List.mem_append_right _ hstep
      | commit q tc =>
        unfold stepInvOp commitLot at hstep
        dsimp only at hstep
        rcases List.mem_append.mp hstep with hin | hnew
        · exact Or.inl hin
        · right
          refine ⟨q, tc, by simp, ?_⟩
          simp at hnew
          rw [hnew]
    · exact Or.inr ⟨q, tc, by simp [hmem], hready⟩

/-- C2: for a single item, over any event trace with zero customer demand in
which every committed cook lot matures by time `T`, a final effective advance
at `T` leaves the lot queue empty and makes the total promoted units equal
the total committed units — nothing is lost or duplicated. -/
theorem claim_C2_inventory_conservation (p : ItemProfile)
    (cadence cook ready₀ T t₀ : ℚ) (ops : List InvOp)
    (_hq : ∀ q t, InvOp.commit q t ∈ ops → 0 < q)
    (hmature : ∀ q t, InvOp.commit q t ∈ ops → t + cook ≤ T)
    (hlast : (runInvOps p cadence cook ops (initItemSim ready₀)).last_inventory_timestamp
      = some t₀)
    (hlt : t₀ < T) :
    (stepInvOp p cadence cook (runInvOps p cadence cook ops (initItemSim ready₀))
      (InvOp.advance T)).st.fryer_lots = [] ∧
    (stepInvOp p cadence cook (runInvOps p cadence cook ops (initItemSim ready₀))
      (InvOp.advance T)).promoted =
    (stepInvOp p cadence cook (runInvOps p cadence cook ops (initItemSim ready₀))
      (InvOp.advance T)).committed := by
  have hcons := runInvOps_conservation p cadence cook ops (initItemSim ready₀)
    (by simp [initItemSim, lotsSum])
  have hall : ∀ lot ∈ (runInvOps p cadence cook ops (initItemSim ready₀)).st.fryer_lots,
      lot.ready_at ≤ T := by
    intro lot hl
    rcases runInvOps_lots_origin p cadence cook ops (initItemSim ready₀) lot hl with
      h₀ | ⟨q, t, hm, hr⟩
    · simp [initItemSim] at h₀
    · rw [hr]
      exact hmature q t hm
  have hpop := popMatured_all T _ hall
  have he : ¬ max 0 (T - t₀) ≤ 0 := by
    have h₁ : (0 : ℚ) < T - t₀ := by linarith
    have h₂ : (0 : ℚ) < max 0 (T - t₀) := lt_max_of_lt_right h₁
    exact not_le.mpr h₂
  unfold stepInvOp
  rw [hlast]
  dsimp only
  rw [if_neg he]
  dsimp only [advanceItem]
  rw [hpop]
  dsimp only
  refine ⟨rfl, ?_⟩
  have hz : lotsSum (runInvOps p cadence cook ops (initItemSim ready₀)).st.fryer_lots =
      (((runInvOps p cadence cook ops (initItemSim ready₀)).st.fryer_lots.map
        (fun l => l.units)).sum) := rfl
  rw [hcons, ← hz]

/-- The concrete C2 trace: an initializing advance at 0, a 5-unit commit at 0,
an advance at 100, a 3-unit commit at 100. -/
def demoInvOps : List InvOp :=
  [InvOp.advance 0, InvOp.commit 5 0, InvOp.advance 100, InvOp.commit 3 100]

/-- Witness for C2: on the concrete trace with cook time 240 s, a final
advance at `T = 1000` promotes exactly the 8 committed units. -/
theorem claim_C2_inventory_conservation_witness :
    (stepInvOp demoProfile 4 240 (runInvOps demoProfile 4 240 demoInvOps (initItemSim 0))
      (InvOp.advance 1000)).st.fryer_lots = [] ∧
    (stepInvOp demoProfile 4 240 (runInvOps demoProfile 4 240 demoInvOps (initItemSim 0))
      (InvOp.advance 1000)).promoted =
    (stepInvOp demoProfile 4 240 (runInvOps demoProfile 4 240 demoInvOps (initItemSim 0))
      (InvOp.advance 1000)).committed := by
  apply claim_C2_inventory_conservation demoProfile 4 240 0 1000 100 demoInvOps
  · intro q t h
    simp [demoInvOps] at h
    rcases h with ⟨rfl, rfl⟩ | ⟨rfl, rfl⟩ <;> norm_num
  · intro q t h
    simp [demoInvOps] at h
    rcases h with ⟨rfl, rfl⟩ | ⟨rfl, rfl⟩ <;> norm_num
  · norm_num [demoInvOps, runInvOps, stepInvOp, initItemSim, advanceItem,
      commitLot, popMatured, demandRateUnitsPerMin, demoProfile, lotsSum]
  · norm_num

/-! ### Claims C10 and C8: the fallback planning path -/

/-- An engine whose per-item maps already cover exactly the current catalog:
both `ensure` normalizations are no-ops.  Every engine the constructor or a
reconfiguration produces is well-formed, and every engine operation preserves
this. -/
def WellFormedEngine (s : Engine) : Prop :=
  ensureFeedbackState s = s ∧ ensureInventoryState s = s

/-- C10: on an unhealthy snapshot, `generate` leaves the planning state of a
well-formed engine entirely unchanged — same trend history, same inventory
(no cook lot committed, no ready units consumed), same decision-clock
timestamp and per-item last-decision quantities. -/
theorem claim_C10_fallback_frame (s : Engine) (snap : Snapshot)
    (hwf : WellFormedEngine s) (hbad : snap.stream_status ≠ "ok") :
    (generate s snap).2 = s ∧
    (generate s snap).2.history = s.history ∧
    (generate s snap).2.inventory = s.inventory ∧
    (generate s snap).2.last_inventory_timestamp = s.last_inventory_timestamp ∧
    (generate s snap).2.last_decision_timestamp = s.last_decision_timestamp ∧
    (generate s snap).2.last_decision_by_item = s.last_decision_by_item := by
  have hmain : (generate s snap).2 = s := by
    unfold generate
    dsimp only
    rw [if_pos hbad]
    unfold buildUnavailableResponse
    dsimp only
    rw [hwf.1, hwf.2]
  exact ⟨hmain, by rw [hmain], by rw [hmain], by rw [hmain], by rw [hmain],
    by rw [hmain]⟩

/-- The unhealthy snapshot used by the C10 and C8 witnesses. -/
def demoErrorSnapshot : Snapshot :=
  { timestamp := 5, total_customers := 7, estimated_wait_time_min := 2,
    processing_fps := 3, stream_status := "error",
    stream_error := some "camera offline" }

/-- The freshly built engine is well-formed. -/
theorem initEngine_wellFormed : WellFormedEngine initEngine := by
  constructor
  · simp [ensureFeedbackState, activeProfiles, defaultItemProfiles, initEngine,
      resetFeedbackState, resetInventoryState, initUrgencyThresholds, clampQ,
      storeAll, installDefaults, dset, dsetdefault, dmem, dlookup]
  · simp [ensureInventoryState, activeProfiles, defaultItemProfiles, initEngine,
      resetFeedbackState, resetInventoryState, initUrgencyThresholds, clampQ,
      baselineReadyUnits, storeAll, installDefaults, dset, dsetdefault, dmem,
      dlookup]

/-- Witness for C10: a degraded snapshot against the fresh engine changes
nothing. -/
theorem claim_C10_fallback_frame_witness :
    (generate initEngine demoErrorSnapshot).2 = initEngine :=
  (claim_C10_fallback_frame initEngine demoErrorSnapshot initEngine_wellFormed
    (by simp [demoErrorSnapshot])).1

/-- C8: on an unhealthy snapshot, `generate` (which is a total function: the
fallback path never raises) returns the fallback payload: queue state
`unavailable`, confidence pinned at exactly `0.45`, zero trend, per-item
recommended units computed by the shared target formula from the raw current
customer count (no trend extrapolation), and — when a non-empty stream error
text is present — a `Stream issue:` note carrying that text. -/
theorem claim_C8_fallback_response (s : Engine) (snap : Snapshot)
    (hbad : snap.stream_status ≠ "ok") :
    (generate s snap).1.forecast.queue_state = "unavailable" ∧
    (generate s snap).1.forecast.confidence = 45/100 ∧
    (generate s snap).1.forecast.trend_customers_per_min = 0 ∧
    (generate s snap).1.recommendations.map (fun e => (e.item, e.recommended_units)) =
      s.item_profiles.map (fun p =>
        (p.key, itemTargetUnits (max 0 snap.total_customers)
          (dget (ensureFeedbackState s).feedback_multiplier_by_item p.key 1) p)) ∧
    (∀ e, snap.stream_error = some e → e ≠ "" →
      ("Stream issue: " ++ e) ∈ (generate s snap).1.notes) := by
  unfold generate
  dsimp only
  rw [if_pos hbad]
  unfold buildUnavailableResponse
  dsimp only
  refine ⟨rfl, rfl, rfl, ?_, ?_⟩
  · rw [List.map_map]
    rfl
  · intro e he hne
    rw [he]
    dsimp only
    rw [if_neg hne]
    simp

/-- Witness for C8: the fallback payload for a concrete error snapshot. -/
theorem claim_C8_fallback_response_witness :
    (generate initEngine demoErrorSnapshot).1.forecast.queue_state = "unavailable" ∧
    (generate initEngine demoErrorSnapshot).1.forecast.confidence = 45/100 ∧
    ("Stream issue: " ++ "camera offline") ∈
      (generate initEngine demoErrorSnapshot).1.notes := by
  have h := claim_C8_fallback_response initEngine demoErrorSnapshot
    (by simp [demoErrorSnapshot])
  exact ⟨h.1, h.2.1, h.2.2.2.2 ("camera offline") rfl (by simp)⟩

/-! ### Claim C4: the decision lock -/

theorem ensureFeedbackState_profiles (s : Engine) :
    (ensureFeedbackState s).item_profiles = s.item_profiles := rfl

theorem ensureFeedbackState_ldts (s : Engine) :
    (ensureFeedbackState s).last_decision_timestamp = s.last_decision_timestamp := rfl

theorem ensureFeedbackState_interval (s : Engine) :
    (ensureFeedbackState s).decision_interval_sec = s.decision_interval_sec := rfl

theorem ensureFeedbackState_ldec (s : Engine) :
    (ensureFeedbackState s).last_decision_by_item = s.last_decision_by_item := rfl

theorem ensureInventoryState_profiles (s : Engine) :
    (ensureInventoryState s).item_profiles = s.item_profiles := rfl

theorem ensureInventoryState_ldts (s : Engine) :
    (ensureInventoryState s).last_decision_timestamp = s.last_decision_timestamp := rfl

theorem ensureInventoryState_interval (s : Engine) :
    (ensureInventoryState s).decision_interval_sec = s.decision_interval_sec := rfl

theorem ensureInventoryState_mult (s : Engine) :
    (ensureInventoryState s).feedback_multiplier_by_item =
      s.feedback_multiplier_by_item := rfl

theorem advanceInventory_profiles (s : Engine) (t load : ℚ) :
    (advanceInventory s t load).item_profiles = s.item_profiles := by
  unfold advanceInventory
  dsimp only
  cases h : (ensureInventoryState s).last_inventory_timestamp with
  | none => rfl
  | some last =>
    dsimp only
    by_cases h₂ : max 0 (t - last) ≤ 0
    · rw [if_pos h₂]
      rfl
    · rw [if_neg h₂]
      rfl

theorem advanceInventory_ldts (s : Engine) (t load : ℚ) :
    (advanceInventory s t load).last_decision_timestamp = s.last_decision_timestamp := by
  unfold advanceInventory
  dsimp only
  cases h : (ensureInventoryState s).last_inventory_timestamp with
  | none => rfl
  | some last =>
    dsimp only
    by_cases h₂ : max 0 (t - last) ≤ 0
    · rw [if_pos h₂]
      rfl
    · rw [if_neg h₂]
      rfl

theorem advanceInventory_interval (s : Engine) (t load : ℚ) :
    (advanceInventory s t load).decision_interval_sec = s.decision_interval_sec := by
  unfold advanceInventory
  dsimp only
  cases h : (ensureInventoryState s).last_inventory_timestamp with
  | none => rfl
  | some last =>
    dsimp only
    by_cases h₂ : max 0 (t - last) ≤ 0
    · rw [if_pos h₂]
      rfl
    · rw [if_neg h₂]
      rfl

theorem advanceInventory_mult (s : Engine) (t load : ℚ) :
    (advanceInventory s t load).feedback_multiplier_by_item = s.feedback_multiplier_by_item := by
  unfold advanceInventory
  dsimp only
  cases h : (ensureInventoryState s).last_inventory_timestamp with
  | none => rfl
  | some last =>
    dsimp only
    by_cases h₂ : max 0 (t - last) ≤ 0
    · rw [if_pos h₂]
      rfl
    · rw [if_neg h₂]
      rfl

theorem advanceInventory_ldec (s : Engine) (t load : ℚ) :
    (advanceInventory s t load).last_decision_by_item = (ensureInventoryState s).last_decision_by_item := by
  unfold advanceInventory
  dsimp only
  cases h : (ensureInventoryState s).last_inventory_timestamp with
  | none => rfl
  | some last =>
    dsimp only
    by_cases h₂ : max 0 (t - last) ≤ 0
    · rw [if_pos h₂]
    · rw [if_neg h₂]

/-- `_decision_due` only reads the last decision timestamp and the decision
interval. -/
theorem decisionDue_congr (s s' : Engine) (t : ℚ)
    (h₁ : s.last_decision_timestamp = s'.last_decision_timestamp)
    (h₂ : s.decision_interval_sec = s'.decision_interval_sec) :
    decisionDue s t = decisionDue s' t := by
  unfold decisionDue
  rw [h₁, h₂]

theorem decisionDue_true (s : Engine) (t : ℚ)
    (h : (decisionDue s t).1 = true) : decisionDue s t = (true, 0) := by
  unfold decisionDue at h ⊢
  cases hl : s.last_decision_timestamp with
  | none => rfl
  | some last =>
    rw [hl] at h
    dsimp only at h ⊢
    by_cases hi : max 0 (t - last) ≥ s.decision_interval_sec
    · rw [if_pos hi]
    · rw [if_neg hi] at h
      simp at h

theorem decisionDue_false (s : Engine) (t last : ℚ)
    (h₁ : s.last_decision_timestamp = some last)
    (h₂ : max 0 (t - last) < s.decision_interval_sec) :
    decisionDue s t =
      (false, max 0 ⌈s.decision_interval_sec - max 0 (t - last)⌉) := by
  unfold decisionDue
  rw [h₁]
  dsimp only
  rw [if_neg (not_le.mpr h₂)]

theorem dlookup_storeAll_not_mem {α β : Type} (key : β → String) (v : β → α)
    (l : List β) (m : List (String × α)) (k : String) (h : k ∉ l.map key) :
    dlookup (storeAll key v l m) k = dlookup m k := by
  unfold storeAll
  induction l generalizing m with
  | nil => simp
  | cons hd t ih =>
    rw [List.foldl_cons]
    have hne : key hd ≠ k := by
      intro hk
      exact h (by simp [hk])
    rw [ih _ (fun hmem => h (by simp [hmem]))]
    exact dlookup_dset_ne _ _ _ _ hne

/-- After writing a value for every element of a list with distinct keys, the
lookup of an element key returns exactly that element's value. -/
theorem dlookup_storeAll_nodup {α β : Type} (key : β → String) (v : β → α)
    (l : List β) (m : List (String × α)) (b : β)
    (hnodup : (l.map key).Nodup) (hb : b ∈ l) :
    dlookup (storeAll key v l m) (key b) = some (v b) := by
  induction l generalizing m with
  | nil => simp at hb
  | cons hd t ih =>
    rw [List.map_cons] at hnodup
    obtain ⟨hnot, hnd⟩ := List.nodup_cons.mp hnodup
    rcases List.mem_cons.mp hb with hb₁ | hb₂
    · subst hb₁
      unfold storeAll
      rw [List.foldl_cons]
      have := dlookup_storeAll_not_mem key v t (dset m (key b) (v b)) (key b) hnot
      unfold storeAll at this
      rw [this]
      exact dlookup_dset_self _ _ _
    · unfold storeAll
      rw [List.foldl_cons]
      have ih₂ := ih (dset m (key hd) (v hd)) hnd hb₂
      unfold storeAll at ih₂
      exact ih₂

/-- In the `decision_due` branch of the planning loop, the recommendation
list accumulates exactly the per-item target quantities and the last-decision
map records them. -/
theorem planFold_due (s : Engine) (nextSec : ℤ) (eff ts : ℚ)
    (ps : List ItemProfile) (acc : PlanAcc) :
    (ps.foldl (planStep s true nextSec eff ts) acc).ldec =
      storeAll (fun p => p.key)
        (fun p => itemTargetUnits eff (dget s.feedback_multiplier_by_item p.key 1) p)
        ps acc.ldec ∧
    ((ps.foldl (planStep s true nextSec eff ts) acc).recs).map
        (fun e => e.recommended_units) =
      acc.recs.map (fun e => e.recommended_units) ++
        ps.map (fun p => itemTargetUnits eff (dget s.feedback_multiplier_by_item p.key 1) p) := by
  induction ps generalizing acc with
  | nil => simp [storeAll]
  | cons hd t ih =>
    rw [List.foldl_cons]
    obtain ⟨ih₁, ih₂⟩ := ih (planStep s true nextSec eff ts acc hd)
    constructor
    · rw [ih₁]
      unfold storeAll
      rw [List.foldl_cons]
      rfl
    · rw [ih₂]
      simp only [planStep]
      simp

/-- In the locked branch of the planning loop, the last-decision map is left
alone and each item re-emits its held (re-clamped) quantity. -/
theorem planFold_locked (s : Engine) (nextSec : ℤ) (eff ts : ℚ)
    (ps : List ItemProfile) (acc : PlanAcc) :
    (ps.foldl (planStep s false nextSec eff ts) acc).ldec = acc.ldec ∧
    ((ps.foldl (planStep s false nextSec eff ts) acc).recs).map
        (fun e => e.recommended_units) =
      acc.recs.map (fun e => e.recommended_units) ++
        ps.map (fun p =>
          min (max 0 (dget acc.ldec p.key
            (itemTargetUnits eff (dget s.feedback_multiplier_by_item p.key 1) p)))
          p.max_unit_size) := by
  induction ps generalizing acc with
  | nil => simp
  | cons hd t ih =>
    rw [List.foldl_cons]
    obtain ⟨ih₁, ih₂⟩ := ih (planStep s false nextSec eff ts acc hd)
    have hstep_ldec : (planStep s false nextSec eff ts acc hd).ldec = acc.ldec := by
      simp [planStep]
    constructor
    · rw [ih₁, hstep_ldec]
    · rw [ih₂, hstep_ldec]
      simp only [planStep]
      simp

/-- The engine state of `generate` after the history append and the feedback
normalization (`s₂` in the healthy path). -/
def generateHistoryEngine (s : Engine) (snap : Snapshot) : Engine :=
  ensureFeedbackState
    { s with history := dequeAppend 90 s.history (snap.timestamp, snap.total_customers) }

/-- The engine state of `generate` after the inventory advance (`s₃`). -/
def generateAdvanced (s : Engine) (snap : Snapshot) : Engine :=
  advanceInventory (generateHistoryEngine s snap) snap.timestamp snap.total_customers

/-- The effective (projected) customer count the healthy path plans for. -/
def generateEffective (s : Engine) (snap : Snapshot) : ℚ :=
  max 0 (stabilizedCustomerCount (generateHistoryEngine s snap).history snap.total_customers +
    trendPerMin (generateHistoryEngine s snap).history *
      max 0 (generateHistoryEngine s snap).forecast_horizon_min)

/-- The result of the per-item planning loop of the healthy path. -/
def generatePlanAcc (s : Engine) (snap : Snapshot) : PlanAcc :=
  (generateAdvanced s snap).item_profiles.foldl
    (planStep (generateAdvanced s snap)
      (decisionDue (generateAdvanced s snap) snap.timestamp).1
      (decisionDue (generateAdvanced s snap) snap.timestamp).2
      (generateEffective s snap) snap.timestamp)
    { inv := (generateAdvanced s snap).inventory
      ldec := (generateAdvanced s snap).last_decision_by_item
      recs := []
      waste_avoided_units := 0
      cost_saved_usd := 0 }

theorem generate_ok_recs (s : Engine) (snap : Snapshot)
    (hok : snap.stream_status = "ok") :
    (generate s snap).1.recommendations = (generatePlanAcc s snap).recs := by
  unfold generate generatePlanAcc generateAdvanced generateHistoryEngine generateEffective
  dsimp only
  rw [if_neg (by simp [hok])]
  rfl

theorem generate_ok_engine (s : Engine) (snap : Snapshot)
    (hok : snap.stream_status = "ok") :
    (generate s snap).2 =
      (if (decisionDue (generateAdvanced s snap) snap.timestamp).1 then
        { generateAdvanced s snap with
            inventory := (generatePlanAcc s snap).inv
            last_decision_by_item := (generatePlanAcc s snap).ldec
            last_decision_timestamp := some snap.timestamp }
      else
        { generateAdvanced s snap with
            inventory := (generatePlanAcc s snap).inv
            last_decision_by_item := (generatePlanAcc s snap).ldec }) := by
  unfold generate generatePlanAcc generateAdvanced generateHistoryEngine generateEffective
  dsimp only
  rw [if_neg (by simp [hok])]
  rfl

/-- The `last_decision_by_item` component of `_ensure_inventory_state`,
unfolded. -/
theorem ensureInventoryState_ldec_eq (s : Engine) :
    (ensureInventoryState s).last_decision_by_item =
      installDefaults (fun kp => kp.1) (fun _ => 0)
        (activeProfiles s.item_profiles)
        (s.last_decision_by_item.filter
          (fun kv => dmem (activeProfiles s.item_profiles) kv.1)) := rfl

/-- C4: after a due decision tick, a second healthy `generate` call that
arrives before the decision interval has elapsed returns, for every item,
exactly the quantity recommended at the due tick (held, not recomputed), and
the decision-clock timestamp is unchanged by the locked call. -/
theorem claim_C4_decision_lock (s : Engine) (snap₁ snap₂ : Snapshot)
    (hkeys : (s.item_profiles.map (fun p => p.key)).Nodup)
    (hok₁ : snap₁.stream_status = "ok")
    (hok₂ : snap₂.stream_status = "ok")
    (hdue₁ : (decisionDue s snap₁.timestamp).1 = true)
    (hlock : max 0 (snap₂.timestamp - snap₁.timestamp) < s.decision_interval_sec) :
    (generate (generate s snap₁).2 snap₂).1.recommendations.map
        (fun e => e.recommended_units) =
      (generate s snap₁).1.recommendations.map (fun e => e.recommended_units) ∧
    (generate (generate s snap₁).2 snap₂).2.last_decision_timestamp =
      (generate s snap₁).2.last_decision_timestamp := by
  -- the per-item target of the first (due) call
  set T := fun p => itemTargetUnits (generateEffective s snap₁)
    (dget (generateAdvanced s snap₁).feedback_multiplier_by_item p.key 1) p with hT
  -- call 1 state facts
  have hprof₁ : (generateAdvanced s snap₁).item_profiles = s.item_profiles := by
    unfold generateAdvanced generateHistoryEngine
    rw [advanceInventory_profiles, ensureFeedbackState_profiles]
  have hldts₁ : (generateAdvanced s snap₁).last_decision_timestamp =
      s.last_decision_timestamp := by
    unfold generateAdvanced generateHistoryEngine
    rw [advanceInventory_ldts, ensureFeedbackState_ldts]
  have hint₁ : (generateAdvanced s snap₁).decision_interval_sec =
      s.decision_interval_sec := by
    unfold generateAdvanced generateHistoryEngine
    rw [advanceInventory_interval, ensureFeedbackState_interval]
  have hdd₁ : decisionDue (generateAdvanced s snap₁) snap₁.timestamp = (true, 0) := by
    rw [decisionDue_congr (generateAdvanced s snap₁) s snap₁.timestamp hldts₁ hint₁]
    exact decisionDue_true s snap₁.timestamp hdue₁
  have hacc₁ : generatePlanAcc s snap₁ =
      s.item_profiles.foldl
        (planStep (generateAdvanced s snap₁) true 0 (generateEffective s snap₁)
          snap₁.timestamp)
        { inv := (generateAdvanced s snap₁).inventory
          ldec := (generateAdvanced s snap₁).last_decision_by_item
          recs := []
          waste_avoided_units := 0
          cost_saved_usd := 0 } := by
    unfold generatePlanAcc
    rw [hdd₁, hprof₁]
  have hplan₁ := planFold_due (generateAdvanced s snap₁) 0 (generateEffective s snap₁)
    snap₁.timestamp s.item_profiles
    { inv := (generateAdvanced s snap₁).inventory
      ldec := (generateAdvanced s snap₁).last_decision_by_item
      recs := []
      waste_avoided_units := 0
      cost_saved_usd := 0 }
  have hunits₁ : (generate s snap₁).1.recommendations.map (fun e => e.recommended_units) =
      s.item_profiles.map T := by
    rw [generate_ok_recs s snap₁ hok₁, hacc₁, hplan₁.2]
    simp [hT]
  have hstore₁ : (generatePlanAcc s snap₁).ldec =
      storeAll (fun p => p.key) T s.item_profiles
        (generateAdvanced s snap₁).last_decision_by_item := by
    rw [hacc₁, hplan₁.1, hT]
  -- facts about the engine returned by call 1
  have hldts_out : (generate s snap₁).2.last_decision_timestamp = some snap₁.timestamp := by
    rw [generate_ok_engine s snap₁ hok₁, hdd₁]
    rfl
  have hldec_out : (generate s snap₁).2.last_decision_by_item =
      (generatePlanAcc s snap₁).ldec := by
    rw [generate_ok_engine s snap₁ hok₁, hdd₁]
    rfl
  have hprof_out : (generate s snap₁).2.item_profiles = s.item_profiles := by
    rw [generate_ok_engine s snap₁ hok₁, hdd₁]
    exact hprof₁
  have hint_out : (generate s snap₁).2.decision_interval_sec = s.decision_interval_sec := by
    rw [generate_ok_engine s snap₁ hok₁, hdd₁]
    exact hint₁
  -- call 2 state facts
  have hprof₂ : (generateAdvanced (generate s snap₁).2 snap₂).item_profiles =
      s.item_profiles := by
    unfold generateAdvanced generateHistoryEngine
    rw [advanceInventory_profiles, ensureFeedbackState_profiles]
    exact hprof_out
  have hldts₂ : (generateAdvanced (generate s snap₁).2 snap₂).last_decision_timestamp =
      some snap₁.timestamp := by
    unfold generateAdvanced generateHistoryEngine
    rw [advanceInventory_ldts, ensureFeedbackState_ldts]
    exact hldts_out
  have hint₂ : (generateAdvanced (generate s snap₁).2 snap₂).decision_interval_sec =
      s.decision_interval_sec := by
    unfold generateAdvanced generateHistoryEngine
    rw [advanceInventory_interval, ensureFeedbackState_interval]
    exact hint_out
  have hdd₂ : decisionDue (generateAdvanced (generate s snap₁).2 snap₂) snap₂.timestamp =
      (false, max 0 ⌈(generateAdvanced (generate s snap₁).2 snap₂).decision_interval_sec -
        max 0 (snap₂.timestamp - snap₁.timestamp)⌉) :=
    decisionDue_false _ _ snap₁.timestamp hldts₂ (by rw [hint₂]; exact hlock)
  -- the last-decision map call 2 reads holds exactly the due-tick quantities
  have hXldec : (generateHistoryEngine (generate s snap₁).2 snap₂).last_decision_by_item =
      (generatePlanAcc s snap₁).ldec := by
    unfold generateHistoryEngine
    rw [ensureFeedbackState_ldec]
    exact hldec_out
  have hXprof : (generateHistoryEngine (generate s snap₁).2 snap₂).item_profiles =
      s.item_profiles := by
    unfold generateHistoryEngine
    rw [ensureFeedbackState_profiles]
    exact hprof_out
  have hL₂ : ∀ p ∈ s.item_profiles,
      dlookup (generateAdvanced (generate s snap₁).2 snap₂).last_decision_by_item p.key =
        some (T p) := by
    intro p hp
    unfold generateAdvanced
    rw [advanceInventory_ldec, ensureInventoryState_ldec_eq, hXldec, hXprof]
    have hmemA : dmem (activeProfiles s.item_profiles) p.key = true := by
      rw [dmem_activeProfiles]
      simp only [decide_eq_true_eq]
      exact List.mem_map_of_mem (fun p => p.key) hp
    have hfilter : dlookup ((generatePlanAcc s snap₁).ldec.filter
        (fun kv => dmem (activeProfiles s.item_profiles) kv.1)) p.key =
        some (T p) := by
      rw [dlookup_filter_key, hmemA, if_pos rfl, hstore₁]
      exact dlookup_storeAll_nodup (fun p => p.key) T s.item_profiles _ p hkeys hp
    rw [dlookup_installDefaults_of_isSome _ _ _ _ _ (by rw [hfilter]; rfl)]
    exact hfilter
  -- call 2: locked loop re-emits the held quantities
  have hacc₂ : generatePlanAcc (generate s snap₁).2 snap₂ =
      s.item_profiles.foldl
        (planStep (generateAdvanced (generate s snap₁).2 snap₂) false
          (max 0 ⌈(generateAdvanced (generate s snap₁).2 snap₂).decision_interval_sec -
            max 0 (snap₂.timestamp - snap₁.timestamp)⌉)
          (generateEffective (generate s snap₁).2 snap₂) snap₂.timestamp)
        { inv := (generateAdvanced (generate s snap₁).2 snap₂).inventory
          ldec := (generateAdvanced (generate s snap₁).2 snap₂).last_decision_by_item
          recs := []
          waste_avoided_units := 0
          cost_saved_usd := 0 } := by
    unfold generatePlanAcc
    rw [hdd₂, hprof₂]
  have hplan₂ := planFold_locked (generateAdvanced (generate s snap₁).2 snap₂)
    (max 0 ⌈(generateAdvanced (generate s snap₁).2 snap₂).decision_interval_sec -
      max 0 (snap₂.timestamp - snap₁.timestamp)⌉)
    (generateEffective (generate s snap₁).2 snap₂) snap₂.timestamp s.item_profiles
    { inv := (generateAdvanced (generate s snap₁).2 snap₂).inventory
      ldec := (generateAdvanced (generate s snap₁).2 snap₂).last_decision_by_item
      recs := []
      waste_avoided_units := 0
      cost_saved_usd := 0 }
  constructor
  · rw [generate_ok_recs (generate s snap₁).2 snap₂ hok₂, hacc₂, hplan₂.2, hunits₁]
    simp only [List.map_nil, List.nil_append]
    rw [List.map_eq_map_iff]
    intro p hp
    unfold dget
    rw [hL₂ p hp]
    simp only [Option.getD_some]
    rw [hT]
    unfold itemTargetUnits
    exact reclamp_eq _ _ (roundToNearestUnit_nonneg _)
  · rw [generate_ok_engine (generate s snap₁).2 snap₂ hok₂, hdd₂, hldts_out]
    exact hldts₂

/-- Healthy snapshot at `t = 0` for the C4 witness. -/
def demoSnap1 : Snapshot :=
  { timestamp := 0, total_customers := 10, estimated_wait_time_min := 2,
    processing_fps := 12, stream_status := "ok", stream_error := none }

/-- Healthy snapshot one second later with a very different customer count. -/
def demoSnap2 : Snapshot :=
  { timestamp := 1, total_customers := 50, estimated_wait_time_min := 9,
    processing_fps := 12, stream_status := "ok", stream_error := none }

/-- Witness for C4: two healthy `generate` calls one second apart (interval
30 s) on the fresh engine yield identical per-item recommended units. -/
theorem claim_C4_decision_lock_witness :
    (generate (generate initEngine demoSnap1).2 demoSnap2).1.recommendations.map
        (fun e => e.recommended_units) =
      (generate initEngine demoSnap1).1.recommendations.map
        (fun e => e.recommended_units) :=
  (claim_C4_decision_lock initEngine demoSnap1 demoSnap2
    (by simp [initEngine, resetFeedbackState, resetInventoryState, defaultItemProfiles])
    rfl rfl (by rfl)
    (by norm_num [demoSnap1, demoSnap2, initEngine, resetFeedbackState,
      resetInventoryState])).1

/-! ### Claim C1: outcome evaluation state machine -/

theorem evalRow_id (now : ℚ) (samples : List AnalyticsSample) (r : FeedbackRecord) :
    (evalRow now samples r).id = r.id := by
  unfold evalRow
  dsimp only
  by_cases h : (qualifyingSamples r.timestamp (dueCutoff r) samples).length = 0
  · rw [if_pos h]
  · rw [if_neg h]

theorem evalRow_status (now : ℚ) (samples : List AnalyticsSample)
    (r : FeedbackRecord) :
    (evalRow now samples r).outcome_status =
      (if (qualifyingSamples r.timestamp (dueCutoff r) samples).length = 0
        then "insufficient_data" else "evaluated") := by
  unfold evalRow
  dsimp only
  by_cases h : (qualifyingSamples r.timestamp (dueCutoff r) samples).length = 0
  · rw [if_pos h, if_pos h]
  · rw [if_neg h, if_neg h]

/-- The evaluator fold, rewritten as a pointwise map: with unique row ids,
each table row is replaced by its evaluated version exactly when it is among
the scanned rows and due, and is untouched otherwise. -/
theorem evalFold_eq_map (now : ℚ) (samples : List AnalyticsSample)
    (rows : List FeedbackRecord) :
    ∀ records : List FeedbackRecord,
    (records.map (fun r => r.id)).Nodup →
    (rows.map (fun r => r.id)).Nodup →
    (∀ r ∈ rows, r ∈ records) →
    rows.foldl
      (fun table row =>
        if now < dueCutoff row then table
        else table.map (fun r => if r.id == row.id then evalRow now samples row else r))
      records =
    records.map (fun r => if r ∈ rows ∧ dueCutoff r ≤ now then evalRow now samples r else r) := by
  induction rows with
  | nil =>
    intro records _ _ _
    simp
  | cons row₀ rest ih =>
    intro records hidnodup hrownodup hsub
    rw [List.map_cons, List.nodup_cons] at hrownodup
    obtain ⟨hid₀, hrestnodup⟩ := hrownodup
    have hrow₀mem : row₀ ∈ records := hsub row₀ (by simp)
    rw [List.foldl_cons]
    -- the first step as a pointwise map
    have hstep : (if now < dueCutoff row₀ then records
        else records.map (fun r => if r.id == row₀.id then evalRow now samples row₀ else r)) =
        records.map (fun r =>
          if dueCutoff row₀ ≤ now ∧ r.id = row₀.id then evalRow now samples row₀ else r) := by
      by_cases hc : now < dueCutoff row₀
      · rw [if_pos hc]
        have : ∀ r ∈ records,
            (if dueCutoff row₀ ≤ now ∧ r.id = row₀.id then evalRow now samples row₀ else r) = r := by
          intro r _
          rw [if_neg]
          rintro ⟨hle, -⟩
          exact absurd hc (not_lt.mpr hle)
        exact ((List.map_eq_map_iff.mpr (fun r hr => this r hr)).trans
          (List.map_id' records)).symm
      · rw [if_neg hc]
        apply List.map_eq_map_iff.mpr
        intro r _
        by_cases hr : r.id = row₀.id
        · rw [if_pos (by simpa using hr), if_pos ⟨not_lt.mp hc, hr⟩]
        · rw [if_neg (by simpa using hr), if_neg (by rintro ⟨-, h⟩; exact hr h)]
    rw [hstep]
    -- apply the induction hypothesis to the updated table
    have hids : (records.map (fun r =>
        if dueCutoff row₀ ≤ now ∧ r.id = row₀.id then evalRow now samples row₀ else r)).map
          (fun r => r.id) = records.map (fun r => r.id) := by
      rw [List.map_map, List.map_eq_map_iff]
      intro r _
      by_cases hr : dueCutoff row₀ ≤ now ∧ r.id = row₀.id
      · simp only [Function.comp_apply, if_pos hr, evalRow_id]
        exact hr.2.symm
      · simp only [Function.comp_apply, if_neg hr]
    have hsub' : ∀ r ∈ rest, r ∈ records.map (fun r =>
        if dueCutoff row₀ ≤ now ∧ r.id = row₀.id then evalRow now samples row₀ else r) := by
      intro r hr
      have hrrec := hsub r (by simp [hr])
      have hrne : ¬ (dueCutoff row₀ ≤ now ∧ r.id = row₀.id) := by
        rintro ⟨-, hideq⟩
        exact hid₀ (hideq ▸ List.mem_map_of_mem (fun r => r.id) hr)
      exact List.mem_map.mpr ⟨r, hrrec, by simp [hrne]⟩
    rw [ih _ (by rw [hids]; exact hidnodup) hrestnodup hsub']
    rw [List.map_map, List.map_eq_map_iff]
    -- pointwise comparison
    intro r hrrec
    simp only [Function.comp_apply]
    by_cases hc : dueCutoff row₀ ≤ now
    · by_cases hid : r.id = row₀.id
      · have hreq : r = row₀ := List.inj_on_of_nodup_map hidnodup hrrec hrow₀mem hid
        subst hreq
        rw [if_pos (show dueCutoff r ≤ now ∧ r.id = r.id from ⟨hc, rfl⟩)]
        have hnotmem : evalRow now samples r ∉ rest := fun hmem =>
          hid₀ (by simpa [evalRow_id] using List.mem_map_of_mem (fun r => r.id) hmem)
        rw [if_neg (show ¬ (evalRow now samples r ∈ rest ∧
          dueCutoff (evalRow now samples r) ≤ now) from fun h => hnotmem h.1)]
        rw [if_pos (show r ∈ r :: rest ∧ dueCutoff r ≤ now from ⟨by simp, hc⟩)]
      · rw [if_neg (show ¬ (dueCutoff row₀ ≤ now ∧ r.id = row₀.id) from fun h => hid h.2)]
        have hmem_iff : r ∈ row₀ :: rest ↔ r ∈ rest := by
          constructor
          · intro h
            rcases List.mem_cons.mp h with h₁ | h₂
            · exact absurd (h₁ ▸ rfl) hid
            · exact h₂
          · intro h
            exact List.mem_cons_of_mem _ h
        by_cases hrq : r ∈ rest ∧ dueCutoff r ≤ now
        · rw [if_pos hrq, if_pos (show r ∈ row₀ :: rest ∧ dueCutoff r ≤ now from
            ⟨hmem_iff.mpr hrq.1, hrq.2⟩)]
        · rw [if_neg hrq, if_neg (show ¬ (r ∈ row₀ :: rest ∧ dueCutoff r ≤ now) from
            fun h => hrq ⟨hmem_iff.mp h.1, h.2⟩)]
    · rw [if_neg (show ¬ (dueCutoff row₀ ≤ now ∧ r.id = row₀.id) from fun h => hc h.1)]
      have hmem_iff : (r ∈ row₀ :: rest ∧ dueCutoff r ≤ now) ↔
          (r ∈ rest ∧ dueCutoff r ≤ now) := by
        constructor
        · rintro ⟨hm, hd⟩
          rcases List.mem_cons.mp hm with h₁ | h₂
          · subst h₁
            exact absurd hd hc
          · exact ⟨h₂, hd⟩
        · rintro ⟨hm, hd⟩
          exact ⟨List.mem_cons_of_mem _ hm, hd⟩
      by_cases hrq : r ∈ rest ∧ dueCutoff r ≤ now
      · rw [if_pos hrq, if_pos (hmem_iff.mpr hrq)]
      · rw [if_neg hrq, if_neg (fun h => hrq (hmem_iff.mp h))]

/-- Characterization of one evaluator sweep (unique ids): each row is
replaced by its evaluated version exactly when it is among the first 1000
pending rows and its evaluation cutoff has passed; every other row — in
particular every non-pending row — is untouched. -/
theorem evaluateFeedbackOutcomes_eq_map (now : ℚ) (samples : List AnalyticsSample)
    (records : List FeedbackRecord)
    (hid : (records.map (fun r => r.id)).Nodup) :
    evaluateFeedbackOutcomes now samples records =
      records.map (fun r =>
        if r ∈ (records.filter (fun r => r.outcome_status == "pending")).take 1000 ∧
            dueCutoff r ≤ now
          then evalRow now samples r else r) := by
  unfold evaluateFeedbackOutcomes
  dsimp only
  apply evalFold_eq_map now samples _ records hid
  · exact hid.sublist (List.Sublist.map _ ((List.take_sublist _ _).trans
      (List.filter_sublist _)))
  · intro r hr
    exact List.mem_of_mem_filter (List.mem_of_mem_take hr)

/-- A pending durable record with id `i`, decided at time 0 with a 1-minute
horizon. -/
def pendingRecordAt (i : ℕ) : FeedbackRecord :=
  { id := i, timestamp := 0, baseline_units := 4, chosen_units := 2,
    units_per_order := 1/2, unit_cost_usd := 1, avg_ticket_usd := 10,
    forecast_horizon_min := 1, projected_customers := 5,
    outcome_status := "pending", evaluated_at := none, actual_customers := none,
    forecast_error_customers := none, realized_waste_delta_units := none,
    realized_cost_delta_usd := none, realized_revenue_delta_usd := none }

/-- 1001 pending records, all long overdue. -/
def manyPendingRecords : List FeedbackRecord :=
  (List.range 1001).map pendingRecordAt

theorem manyPendingRecords_ids : (manyPendingRecords.map (fun r => r.id)).Nodup := by
  unfold manyPendingRecords
  rw [List.map_map]
  have h : List.map ((fun r => r.id) ∘ pendingRecordAt) (List.range 1001) =
      List.range 1001 :=
    (List.map_eq_map_iff.mpr (fun a _ => rfl)).trans (List.map_id' _)
  rw [h]
  exact List.nodup_range 1001

/-- Counterexample to C1 as stated: with 1001 pending, long-overdue records
and no samples at all, the claim mandates that every record be set to
`insufficient_data` when the evaluator runs; but the evaluator scans at most
1000 pending rows per run, so the 1001st record (index 1000) is due, has zero
qualifying samples, and is still `pending` after the run. -/
theorem claim_C1_counterexample :
    manyPendingRecords.get? 1000 = some (pendingRecordAt 1000) ∧
    (pendingRecordAt 1000).outcome_status = "pending" ∧
    dueCutoff (pendingRecordAt 1000) ≤ 1000000 ∧
    ((evaluateFeedbackOutcomes 1000000 [] manyPendingRecords).get? 1000).map
      (fun r => r.outcome_status) = some ("pending") ∧
    ("pending" : String) ≠ "insufficient_data" := by
  have hget : manyPendingRecords.get? 1000 = some (pendingRecordAt 1000) := by
    unfold manyPendingRecords
    rw [List.get?_map, List.get?_range (by norm_num)]
    rfl
  have hfilter : manyPendingRecords.filter (fun r => r.outcome_status == "pending") =
      manyPendingRecords := by
    apply List.filter_eq_self.mpr
    intro r hr
    obtain ⟨i, -, rfl⟩ := List.mem_map.mp hr
    rfl
  have hscan : (manyPendingRecords.filter
      (fun r => r.outcome_status == "pending")).take 1000 =
      (List.range 1000).map pendingRecordAt := by
    rw [hfilter]
    unfold manyPendingRecords
    rw [← List.map_take, List.take_range]
    norm_num
  have hnotin : pendingRecordAt 1000 ∉ (List.range 1000).map pendingRecordAt := by
    intro h
    obtain ⟨i, hi, heq⟩ := List.mem_map.mp h
    have hieq : i = 1000 := congrArg (fun r => r.id) heq
    rw [hieq] at hi
    exact absurd (List.mem_range.mp hi) (by norm_num)
  refine ⟨hget, rfl, by norm_num [dueCutoff, pendingRecordAt], ?_, by simp⟩
  rw [evaluateFeedbackOutcomes_eq_map 1000000 [] manyPendingRecords
    manyPendingRecords_ids]
  rw [List.get?_map, hget]
  simp only [Option.map_some']
  rw [if_neg (by rw [hscan]; rintro ⟨hm, -⟩; exact hnotin hm)]
  rfl

/-- C1 (amended): with unique ids, one evaluator sweep (1) replaces exactly
the rows among the 1000 oldest pending ones whose (half-minute-floored)
evaluation cutoff has passed, leaving every other row — in particular every
already-terminal row — byte-for-byte unchanged, so `pending` moves to at most
one terminal state and never reverts; (2) the new status of an evaluated row
is `insufficient_data` exactly when zero samples with stream status `ok` or
`degraded` lie in the window `[timestamp, timestamp + horizon]` (the stored
horizon is at least 0.5 min, so the window is exactly the claim's window),
and `evaluated` otherwise; and (3) a second sweep never touches a row the
first sweep evaluated, so each record is evaluated at most once. -/
theorem claim_C1_amended (now : ℚ) (samples : List AnalyticsSample)
    (records : List FeedbackRecord)
    (hid : (records.map (fun r => r.id)).Nodup) :
    (∀ i : ℕ, (evaluateFeedbackOutcomes now samples records).get? i =
      (records.get? i).map (fun r =>
        if r ∈ (records.filter (fun r => r.outcome_status == "pending")).take 1000 ∧
            dueCutoff r ≤ now
          then evalRow now samples r else r)) ∧
    (∀ r : FeedbackRecord,
      (evalRow now samples r).outcome_status =
        (if (qualifyingSamples r.timestamp (dueCutoff r) samples).length = 0
          then "insufficient_data" else "evaluated") ∧
      (1/2 ≤ r.forecast_horizon_min →
        dueCutoff r = r.timestamp + 60 * r.forecast_horizon_min)) ∧
    (∀ (i : ℕ) (r₁ : FeedbackRecord),
      (evaluateFeedbackOutcomes now samples records).get? i = some r₁ →
      r₁.outcome_status ≠ "pending" →
      (evaluateFeedbackOutcomes now samples
        (evaluateFeedbackOutcomes now samples records)).get? i = some r₁) := by
  refine ⟨?_, ?_, ?_⟩
  · intro i
    rw [evaluateFeedbackOutcomes_eq_map now samples records hid]
    exact List.get?_map _ _ _
  · intro r
    refine ⟨evalRow_status now samples r, ?_⟩
    intro hh
    unfold dueCutoff
    rw [max_eq_right hh]
  · intro i r₁ hget hstat
    have hid₂ : ((evaluateFeedbackOutcomes now samples records).map
        (fun r => r.id)).Nodup := by
      rw [evaluateFeedbackOutcomes_eq_map now samples records hid, List.map_map]
      have h : List.map ((fun r => r.id) ∘ (fun r =>
          if r ∈ (records.filter (fun r => r.outcome_status == "pending")).take 1000 ∧
              dueCutoff r ≤ now
            then evalRow now samples r else r)) records =
          records.map (fun r => r.id) := by
        apply List.map_eq_map_iff.mpr
        intro r _
        simp only [Function.comp_apply]
        by_cases hr : r ∈ (records.filter
            (fun r => r.outcome_status == "pending")).take 1000 ∧ dueCutoff r ≤ now
        · rw [if_pos hr, evalRow_id]
        · rw [if_neg hr]
      rw [h]
      exact hid
    rw [evaluateFeedbackOutcomes_eq_map now samples _ hid₂, List.get?_map, hget]
    simp only [Option.map_some']
    rw [if_neg]
    rintro ⟨hm, -⟩
    exact hstat (by simpa using List.of_mem_filter (List.mem_of_mem_take hm))

/-- A concrete pending record, decided at time 0 with a 1-minute horizon. -/
def demoEvalRecord₁ : FeedbackRecord := pendingRecordAt 1

/-- A concrete already-evaluated record. -/
def demoEvalRecord₂ : FeedbackRecord :=
  { pendingRecordAt 2 with outcome_status := "evaluated", evaluated_at := some 50 }

/-- One healthy sample inside the evaluation window of `demoEvalRecord₁`. -/
def demoEvalSamples : List AnalyticsSample :=
  [{ timestamp := 30, stream_status := "ok", total_customers := 6 }]

/-- A two-row feedback table. -/
def demoEvalRecords : List FeedbackRecord := [demoEvalRecord₁, demoEvalRecord₂]

/-- Witness for C1 (amended): on the concrete table, the first sweep
evaluates the due pending record, and a second sweep leaves the evaluated
row untouched. -/
theorem claim_C1_amended_witness :
    (evaluateFeedbackOutcomes 100 demoEvalSamples
      (evaluateFeedbackOutcomes 100 demoEvalSamples demoEvalRecords)).get? 0 =
      some (evalRow 100 demoEvalSamples demoEvalRecord₁) := by
  have hid : (demoEvalRecords.map (fun r => r.id)).Nodup := by
    simp [demoEvalRecords, demoEvalRecord₁, demoEvalRecord₂, pendingRecordAt]
  have h := claim_C1_amended 100 demoEvalSamples demoEvalRecords hid
  have h0 := h.1 0
  have hget0 : demoEvalRecords.get? 0 = some demoEvalRecord₁ := rfl
  rw [hget0] at h0
  simp only [Option.map_some'] at h0
  have hmem : demoEvalRecord₁ ∈ (demoEvalRecords.filter
      (fun r => r.outcome_status == "pending")).take 1000 := by
    simp [demoEvalRecords, demoEvalRecord₁, demoEvalRecord₂, pendingRecordAt]
  have hdue : dueCutoff demoEvalRecord₁ ≤ 100 := by
    norm_num [dueCutoff, demoEvalRecord₁, pendingRecordAt]
  rw [if_pos ⟨hmem, hdue⟩] at h0
  have hstat : (evalRow 100 demoEvalSamples demoEvalRecord₁).outcome_status ≠
      "pending" := by
    rw [(h.2.1 demoEvalRecord₁).1]
    by_cases hq : (qualifyingSamples demoEvalRecord₁.timestamp
        (dueCutoff demoEvalRecord₁) demoEvalSamples).length = 0
    · rw [if_pos hq]
      simp
    · rw [if_neg hq]
      simp
  exact h.2.2 0 _ h0 hstat
